import Mathlib

/-
Verification of the cutboard clipboard-capture core against its
natural-language specification.

The Rust sources (src-tauri/src/clipboard.rs, src-tauri/src/sensitive.rs)
are shallowly embedded below:
* Rust `&str` / `String` values are modelled as `List Char`; byte buffers
  (`&[u8]`, `Vec<u8>`) as `List Nat` whose elements are byte values.
* Machine integers are modelled as `Nat`/`Int` with explicit `% 2 ^ 64`
  (respectively `% 256`) where the Rust code relies on wrapping semantics
  (release-profile behaviour of `wrapping_mul` and of `u8` arithmetic).
* Rust's Unicode-aware `str::to_lowercase` / `str::trim` are modelled by
  their ASCII restrictions (`Char.toLower`, `Char.isWhitespace`), which
  agree with the Rust behaviour on every input considered by the claims.
* The `fancy_regex` crate is an external dependency, not repository code;
  its matching semantics enters the embedding as an explicit
  `RegexEngine` parameter.  The one regex whose concrete behaviour the
  claims exercise (the card-number pattern) is additionally given a
  concrete leftmost-match backtracking model, `cardFind`.
* PNG encoding by the external `image` crate is abstracted away:
  `dib_to_png` returns the decoded RGBA raster; encoding an in-bounds
  raster to an in-memory PNG buffer cannot fail.
-/

set_option maxRecDepth 100000

namespace Cutboard

/-! ### Generic text helpers (models of Rust `str` operations) -/

/-- Model of Rust `str::contains` (substring search): `needle` occurs
contiguously inside `hay`. -/
def containsSub (hay needle : List Char) : Bool :=
  match hay with
  | [] => List.isPrefixOf needle []
  | _ :: t => List.isPrefixOf needle hay || containsSub t needle

/-- Model of Rust `str::trim` (ASCII whitespace restriction). -/
def trimL (l : List Char) : List Char :=
  ((l.dropWhile Char.isWhitespace).reverse.dropWhile Char.isWhitespace).reverse

/-- UTF-8 byte length of a character list; model of Rust `str::len`. -/
def utf8LenL (l : List Char) : Nat := (l.map Char.utf8Size).sum

/-- Model of Rust `str::strip_prefix`. -/
def strip_front (pre l : List Char) : Option (List Char) :=
  if List.isPrefixOf pre l then some (l.drop pre.length) else none

/-- Drop one trailing carriage return, as Rust `str::lines` does per line. -/
def dropCR (l : List Char) : List Char :=
  if l.getLast? = some '\r' then l.dropLast else l

/-- Model of Rust `str::lines`: split on newline terminators, stripping a
trailing carriage return from each line. -/
def linesL (l : List Char) : List (List Char) :=
  if l = [] then []
  else
    let parts := List.splitOn '\n' l
    let parts := if parts.getLast? = some [] then parts.dropLast else parts
    parts.map dropCR

/-- Model of Rust `usize::from_str` (`"v".parse::<usize>()`): optional
leading plus sign, then one or more ASCII digits. -/
def parseDigits (l : List Char) : Option Nat :=
  if l ≠ [] ∧ l.all Char.isDigit then
    some (l.foldl (fun a c => a * 10 + (c.toNat - 48)) 0)
  else none

/-- Model of Rust `str::parse::<usize>` including the optional `+` sign. -/
def parse_usize (l : List Char) : Option Nat :=
  match l with
  | '+' :: rest => parseDigits rest
  | _ => parseDigits l

/-- Byte-span substring `text[s..e]`, as `fancy_regex::Match::as_str`
exposes it (positions modelled as character indices; exact for the ASCII
texts the claims evaluate). -/
def subL (t : List Char) (s e : Nat) : List Char := (t.drop s).take (e - s)

/-! ### Content fingerprint and dedup gate
(clipboard.rs: `compute_content_hash`, `LAST_CONTENT_HASH` handling inside
`on_clipboard_change`). -/

/-- One step of FNV-1a over a 64-bit accumulator:
`hash ^= byte; hash = hash.wrapping_mul(0x100000001b3)`. -/
def fnvStep (hash byte : Nat) : Nat := ((hash ^^^ byte) * 0x100000001b3) % (2 ^ 64)

/-- The 64-bit FNV-1a accumulator over a byte buffer, fixed seedless basis
`0xcbf29ce484222325` (clipboard.rs lines 6-14). -/
def fnv1a (data : List Nat) : Nat := data.foldl fnvStep 0xcbf29ce484222325

/-- Lower-case hexadecimal digit for a value below 16. -/
def hexDigit (n : Nat) : Char := if n < 10 then Char.ofNat (48 + n) else Char.ofNat (87 + n)

/-- Model of Rust `format!("\x7b:016x\x7d", hash)`: exactly 16 lower-case hex
digits, zero padded, most significant first. -/
def toHex16 (n : Nat) : List Char :=
  (List.range 16).map (fun i => hexDigit (n / 16 ^ (15 - i) % 16))

/-- Model of `compute_content_hash` (clipboard.rs lines 6-14). -/
def compute_content_hash (data : List Nat) : List Char := toHex16 (fnv1a data)

/-- The dedup gate step on the stored `LAST_CONTENT_HASH` value
(clipboard.rs lines 340-345 and 392-398): returns the suppress flag and the
new stored state.  The spec names this contract `should_suppress`. -/
def should_suppress (last digest : List Char) : Bool × List Char :=
  if last = digest then (true, last) else (false, digest)

/-- Run the dedup gate over a sequence of digests, starting from a stored
state (initially `[]`, i.e. `String::new()`), collecting suppress flags. -/
def gate_run : List Char → List (List Char) → List Bool
  | _, [] => []
  | last, d :: ds =>
    (should_suppress last d).1 :: gate_run (should_suppress last d).2 ds

/-! ### Sensitive-data detector (sensitive.rs) -/

/-- Model of `luhn_check` (sensitive.rs lines 37-50). -/
def luhn_check (raw : List Char) : Bool :=
  let digits := (raw.filter Char.isDigit).map (fun c => c.toNat - 48)
  if digits.length < 13 ∨ 19 < digits.length then false
  else
    let step : (Nat × Bool) → Nat → (Nat × Bool) := fun acc d =>
      let n := if acc.2 then (if 9 < d * 2 then d * 2 - 9 else d * 2) else d
      (acc.1 + n, !acc.2)
    (digits.reverse.foldl step (0, false)).1 % 10 = 0

/-- Model of `china_id_check` (sensitive.rs lines 52-67): mod-11 weighted
checksum over the first 17 characters, compared with the 18th. -/
def china_id_check (raw : List Char) : Bool :=
  let digits := raw.filter Char.isAlphanum
  if digits.length ≠ 18 then false
  else
    let weights := [7, 9, 10, 5, 8, 4, 2, 1, 6, 3, 7, 9, 10, 5, 8, 4, 2]
    let check_chars := ['1', '0', 'X', '9', '8', '7', '6', '5', '4', '3', '2']
    if (List.range 17).all (fun i => (digits.getD i ' ').isDigit) then
      let sum := (List.range 17).foldl
        (fun s i => s + ((digits.getD i ' ').toNat - 48) * weights.getD i 0) 0
      decide ((digits.getD 17 ' ').toUpper = check_chars.getD (sum % 11) ' ')
    else false

/-- Semantics of `fancy_regex::Regex::find_from_pos`, as a parameter of the
embedding: given the regex source string, the text and a start position,
return the span of the leftmost match at or after that position.
`fancy_regex` is an external crate, so its engine is not embedded; theorems
about the detector quantify over it unless a concrete pattern's behaviour
is itself under test. -/
def RegexEngine : Type := List Char → List Char → Nat → Option (Nat × Nat)

/-- Model of the `Pattern` struct (sensitive.rs lines 4-7): a compiled regex
(represented by its `find_from_pos` behaviour) plus an optional validator. -/
structure Pattern where
  find : List Char → Nat → Option (Nat × Nat)
  validate : Option (List Char → Bool)

/-- Model of `Pattern::new` (sensitive.rs lines 10-12). -/
def Pattern.new (engine : RegexEngine) (pat : String) : Pattern :=
  { find := engine pat.data, validate := none }

/-- Model of `Pattern::with_validator` (sensitive.rs lines 13-15). -/
def Pattern.with_validator (engine : RegexEngine) (pat : String)
    (v : List Char → Bool) : Pattern :=
  { find := engine pat.data, validate := some v }

/-- The scanning loop of `Pattern::matches` (sensitive.rs lines 16-32),
written with an explicit decreasing counter: each iteration advances
`start` by at least one, so `text.length + 1 - start` iterations suffice. -/
def matchesFromAux (p : Pattern) (t : List Char) : Nat → Nat → Bool
  | 0, _ => false
  | gas + 1, start =>
    if start < t.length then
      match p.find t start with
      | some (s, e) =>
        match p.validate with
        | some v =>
          if v (subL t s e) then true
          else matchesFromAux p t gas (Nat.max e (start + 1))
        | none => true
      | none => false
    else false

/-- `Pattern::matches` scanning from a given position. -/
def matchesFrom (p : Pattern) (t : List Char) (start : Nat) : Bool :=
  matchesFromAux p t (t.length + 1 - start) start

/-- Model of `Pattern::matches` (sensitive.rs lines 16-32). -/
def Pattern.matches (p : Pattern) (t : List Char) : Bool := matchesFrom p t 0

/-- Model of the `KEYWORDS` list (sensitive.rs lines 92-98). -/
def KEYWORDS : List (List Char) :=
  [("password").data, ("passwd").data, ("密码").data, ("密碼").data,
   ("secret").data, ("token").data,
   ("api_key").data, ("apikey").data, ("api-key").data, ("access_key").data,
   ("private_key").data,
   ("client_secret").data, ("パスワード").data, ("비밀번호").data,
   ("пароль").data, ("كلمة المرور").data,
   ("mật khẩu").data, ("รหัสผ่าน").data, ("kata sandi").data, ("şifre").data,
   ("hasło").data, ("wachtwoord").data,
   ("passwort").data, ("contraseña").data, ("senha").data,
   ("mot de passe").data]

/-- Model of the `UNIVERSAL` pattern set (sensitive.rs lines 71-89), with the
regex source strings transcribed verbatim and the Luhn validator attached to
the card pattern. -/
def UNIVERSAL (engine : RegexEngine) : List Pattern :=
  [Pattern.new engine ("(?i)\\b[a-z0-9._%+\\-]+@[a-z0-9.\\-]+\\.[a-z]\x7b2,\x7d\\b"),
   Pattern.with_validator engine
     ("\\b\\d\x7b4\x7d[\\s\\-]?\\d\x7b4\x7d[\\s\\-]?\\d\x7b4\x7d[\\s\\-]?\\d\x7b3,4\x7d\\b")
     luhn_check,
   Pattern.new engine
     ("\\b(?:25[0-5]|2[0-4]\\d|[01]?\\d\\d?)\\.(?:25[0-5]|2[0-4]\\d|[01]?\\d\\d?)\\.(?:25[0-5]|2[0-4]\\d|[01]?\\d\\d?)\\.(?:25[0-5]|2[0-4]\\d|[01]?\\d\\d?)\\b"),
   Pattern.new engine ("\\bAKIA[0-9A-Z]\x7b16\x7d\\b"),
   Pattern.new engine ("(?i)\\b(?:sk|pk)_(?:live|test)_[a-z0-9]\x7b20,\x7d\\b"),
   Pattern.new engine ("\\beyJ[A-Za-z0-9\\-_]+\\.eyJ[A-Za-z0-9\\-_]+\\.[A-Za-z0-9\\-_.+/=]+\\b"),
   Pattern.new engine
     ("\\b[A-Z]\x7b2\x7d\\d\x7b2\x7d[\\s]?[A-Z0-9]\x7b4\x7d[\\s]?(?:[A-Z0-9]\x7b4\x7d[\\s]?)\x7b2,7\x7d[A-Z0-9]\x7b1,4\x7d\\b")]

/-- Model of the `CN` regional pattern set (sensitive.rs lines 103-108). -/
def CN (engine : RegexEngine) : List Pattern :=
  [Pattern.new engine ("(?<!\\d)1[3-9]\\d\x7b9\x7d(?!\\d)"),
   Pattern.with_validator engine ("(?<!\\d)\\d\x7b17\x7d[\\dXx](?!\\d)") china_id_check]

/-- Model of the `TW` regional pattern set (sensitive.rs lines 111-115). -/
def TW (engine : RegexEngine) : List Pattern :=
  [Pattern.new engine ("(?<!\\d)09\\d\x7b8\x7d(?!\\d)"),
   Pattern.new engine ("(?<![A-Za-z])[A-Z][12]\\d\x7b8\x7d(?!\\d)")]

/-- Model of the `EN` regional pattern set (sensitive.rs lines 118-127). -/
def EN (engine : RegexEngine) : List Pattern :=
  [Pattern.new engine
     ("(?<!\\d)\\(?\\d\x7b3\x7d\\)?[\\s\\-\\.]\\d\x7b3\x7d[\\s\\-\\.]\\d\x7b4\x7d(?!\\d)"),
   Pattern.new engine ("(?<!\\d)\\d\x7b3\x7d\\-\\d\x7b2\x7d\\-\\d\x7b4\x7d(?!\\d)"),
   Pattern.new engine
     ("(?i)\\b[A-CEGHJ-PR-TW-Z][A-CEGHJ-NPR-TW-Z]\\s?\\d\x7b2\x7d\\s?\\d\x7b2\x7d\\s?\\d\x7b2\x7d\\s?[A-D]\\b"),
   Pattern.new engine ("(?<!\\d)(?:\\+44[\\s\\-]?|0)7\\d\x7b3\x7d[\\s\\-]?\\d\x7b6\x7d(?!\\d)")]

/-- Model of the `JA` regional pattern set (sensitive.rs lines 130-135). -/
def JA (engine : RegexEngine) : List Pattern :=
  [Pattern.new engine ("(?<!\\d)0[789]0[\\-\\s]?\\d\x7b4\x7d[\\-\\s]?\\d\x7b4\x7d(?!\\d)"),
   Pattern.new engine ("(?<!\\d)\\d\x7b4\x7d[\\s]?\\d\x7b4\x7d[\\s]?\\d\x7b4\x7d(?!\\d)")]

/-- Model of the `KO` regional pattern set (sensitive.rs lines 138-143). -/
def KO (engine : RegexEngine) : List Pattern :=
  [Pattern.new engine ("(?<!\\d)01[016789][\\-\\s]?\\d\x7b3,4\x7d[\\-\\s]?\\d\x7b4\x7d(?!\\d)"),
   Pattern.new engine ("(?<!\\d)\\d\x7b6\x7d[\\-\\s]\\d\x7b7\x7d(?!\\d)")]

/-- Model of the `FR` regional pattern set (sensitive.rs lines 146-151). -/
def FR (engine : RegexEngine) : List Pattern :=
  [Pattern.new engine ("(?<!\\d)(?:\\+33[\\s\\-]?|0)[67](?:[\\s\\.\\-]?\\d\x7b2\x7d)\x7b4\x7d(?!\\d)"),
   Pattern.new engine
     ("(?<!\\d)[12]\\s?\\d\x7b2\x7d\\s?\\d\x7b2\x7d\\s?\\d\x7b2\x7d\\s?\\d\x7b3\x7d\\s?\\d\x7b3\x7d\\s?\\d\x7b2\x7d(?!\\d)")]

/-- Model of the `DE` regional pattern set (sensitive.rs lines 154-159). -/
def DE (engine : RegexEngine) : List Pattern :=
  [Pattern.new engine ("(?<!\\d)(?:\\+49[\\s\\-]?|0)1[567]\\d[\\s\\-]?\\d\x7b3,4\x7d[\\s\\-]?\\d\x7b4\x7d(?!\\d)"),
   Pattern.new engine ("(?<!\\d)\\d\x7b11\x7d(?!\\d)")]

/-- Model of the `ES` regional pattern set (sensitive.rs lines 162-169). -/
def ES (engine : RegexEngine) : List Pattern :=
  [Pattern.new engine ("(?<!\\d)(?:\\+34[\\s\\-]?)?[67]\\d\x7b2\x7d[\\s\\-]?\\d\x7b3\x7d[\\s\\-]?\\d\x7b3\x7d(?!\\d)"),
   Pattern.new engine ("(?<!\\d)\\d\x7b8\x7d[\\-\\s]?[A-Z](?![A-Za-z])"),
   Pattern.new engine ("(?<![A-Za-z])[XYZ]\\d\x7b7\x7d[\\-\\s]?[A-Z](?![A-Za-z])")]

/-- Model of the `PT` regional pattern set (sensitive.rs lines 172-179). -/
def PT (engine : RegexEngine) : List Pattern :=
  [Pattern.new engine ("(?<!\\d)\\d\x7b3\x7d\\.?\\d\x7b3\x7d\\.?\\d\x7b3\x7d[\\-]?\\d\x7b2\x7d(?!\\d)"),
   Pattern.new engine ("(?<!\\d)\\(?\\d\x7b2\x7d\\)?[\\s\\-]?9\\d\x7b4\x7d[\\-\\s]?\\d\x7b4\x7d(?!\\d)"),
   Pattern.new engine ("(?<!\\d)(?:\\+351[\\s\\-]?)?9[1236]\\d[\\s\\-]?\\d\x7b3\x7d[\\s\\-]?\\d\x7b3\x7d(?!\\d)")]

/-- Model of the `RU` regional pattern set (sensitive.rs lines 182-189). -/
def RU (engine : RegexEngine) : List Pattern :=
  [Pattern.new engine
     ("(?<!\\d)(?:\\+7|8)[\\s\\-]?9\\d\x7b2\x7d[\\s\\-]?\\d\x7b3\x7d[\\s\\-]?\\d\x7b2\x7d[\\s\\-]?\\d\x7b2\x7d(?!\\d)"),
   Pattern.new engine ("(?<!\\d)\\d\x7b4\x7d[\\s]\\d\x7b6\x7d(?!\\d)"),
   Pattern.new engine ("(?<!\\d)\\d\x7b3\x7d[\\-]\\d\x7b3\x7d[\\-]\\d\x7b3\x7d[\\s]\\d\x7b2\x7d(?!\\d)")]

/-- Model of the `AR` regional pattern set (sensitive.rs lines 192-201). -/
def AR (engine : RegexEngine) : List Pattern :=
  [Pattern.new engine ("(?<!\\d)(?:\\+966[\\s\\-]?)?05\\d[\\s\\-]?\\d\x7b3\x7d[\\s\\-]?\\d\x7b4\x7d(?!\\d)"),
   Pattern.new engine ("(?<!\\d)(?:\\+20[\\s\\-]?)?01[0125]\\d\x7b8\x7d(?!\\d)"),
   Pattern.new engine ("(?<!\\d)(?:\\+971[\\s\\-]?)?05[0-9]\\d[\\s\\-]?\\d\x7b3\x7d[\\s\\-]?\\d\x7b4\x7d(?!\\d)"),
   Pattern.new engine ("(?<!\\d)[12]\\d\x7b9\x7d(?!\\d)")]

/-- Model of the `TH` regional pattern set (sensitive.rs lines 204-209). -/
def TH (engine : RegexEngine) : List Pattern :=
  [Pattern.new engine ("(?<!\\d)(?:\\+66[\\s\\-]?)?0[689]\\d[\\s\\-]?\\d\x7b3\x7d[\\s\\-]?\\d\x7b4\x7d(?!\\d)"),
   Pattern.new engine ("(?<!\\d)\\d[\\-\\s]?\\d\x7b4\x7d[\\-\\s]?\\d\x7b5\x7d[\\-\\s]?\\d\x7b2\x7d[\\-\\s]?\\d(?!\\d)")]

/-- Model of the `VI` regional pattern set (sensitive.rs lines 212-217). -/
def VI (engine : RegexEngine) : List Pattern :=
  [Pattern.new engine ("(?<!\\d)(?:\\+84[\\s\\-]?)?0[35789]\\d[\\s\\-]?\\d\x7b3\x7d[\\s\\-]?\\d\x7b3\x7d(?!\\d)"),
   Pattern.new engine ("(?<!\\d)0\\d\x7b2\x7d\\d\x7b9\x7d(?!\\d)")]

/-- Model of the `IT` regional pattern set (sensitive.rs lines 220-225). -/
def IT (engine : RegexEngine) : List Pattern :=
  [Pattern.new engine ("(?<!\\d)(?:\\+39[\\s\\-]?)?3\\d\x7b2\x7d[\\s\\-]?\\d\x7b3\x7d[\\s\\-]?\\d\x7b4\x7d(?!\\d)"),
   Pattern.new engine
     ("(?<![A-Za-z])[A-Z]\x7b6\x7d\\d\x7b2\x7d[A-Z]\\d\x7b2\x7d[A-Z]\\d\x7b3\x7d[A-Z](?![A-Za-z])")]

/-- Model of the `NL` regional pattern set (sensitive.rs lines 228-233). -/
def NL (engine : RegexEngine) : List Pattern :=
  [Pattern.new engine
     ("(?<!\\d)(?:\\+31[\\s\\-]?|0)6[\\s\\-]?\\d\x7b2\x7d[\\s\\-]?\\d\x7b2\x7d[\\s\\-]?\\d\x7b2\x7d[\\s\\-]?\\d\x7b2\x7d(?!\\d)"),
   Pattern.new engine ("(?<!\\d)\\d\x7b9\x7d(?!\\d)")]

/-- Model of the `PL` regional pattern set (sensitive.rs lines 236-241). -/
def PL (engine : RegexEngine) : List Pattern :=
  [Pattern.new engine ("(?<!\\d)(?:\\+48[\\s\\-]?)?[4-9]\\d\x7b2\x7d[\\s\\-]?\\d\x7b3\x7d[\\s\\-]?\\d\x7b3\x7d(?!\\d)"),
   Pattern.new engine ("(?<!\\d)\\d\x7b11\x7d(?!\\d)")]

/-- Model of the `TR` regional pattern set (sensitive.rs lines 244-249). -/
def TR (engine : RegexEngine) : List Pattern :=
  [Pattern.new engine ("(?<!\\d)(?:\\+90[\\s\\-]?)?5\\d\x7b2\x7d[\\s\\-]?\\d\x7b3\x7d[\\s\\-]?\\d\x7b2\x7d[\\s\\-]?\\d\x7b2\x7d(?!\\d)"),
   Pattern.new engine ("(?<!\\d)[1-9]\\d\x7b10\x7d(?!\\d)")]

/-- Model of the `UK` regional pattern set (sensitive.rs lines 252-257). -/
def UK (engine : RegexEngine) : List Pattern :=
  [Pattern.new engine
     ("(?<!\\d)(?:\\+380[\\s\\-]?|0)[3-9]\\d[\\s\\-]?\\d\x7b3\x7d[\\s\\-]?\\d\x7b2\x7d[\\s\\-]?\\d\x7b2\x7d(?!\\d)"),
   Pattern.new engine ("(?<!\\d)\\d\x7b10\x7d(?!\\d)")]

/-- Model of the `ID` regional pattern set (sensitive.rs lines 260-265). -/
def ID (engine : RegexEngine) : List Pattern :=
  [Pattern.new engine ("(?<!\\d)(?:\\+62[\\s\\-]?|0)8\\d\x7b2\x7d[\\s\\-]?\\d\x7b4\x7d[\\s\\-]?\\d\x7b3,4\x7d(?!\\d)"),
   Pattern.new engine ("(?<!\\d)\\d\x7b16\x7d(?!\\d)")]

/-- Model of the `HI` regional pattern set (sensitive.rs lines 268-275). -/
def HI (engine : RegexEngine) : List Pattern :=
  [Pattern.new engine ("(?<!\\d)(?:\\+91[\\s\\-]?)?[6-9]\\d\x7b4\x7d[\\s\\-]?\\d\x7b5\x7d(?!\\d)"),
   Pattern.new engine ("(?<!\\d)\\d\x7b4\x7d[\\s\\-]?\\d\x7b4\x7d[\\s\\-]?\\d\x7b4\x7d(?!\\d)"),
   Pattern.new engine ("(?<![A-Za-z])[A-Z]\x7b5\x7d\\d\x7b4\x7d[A-Z](?![A-Za-z])")]

/-- Model of `get_regional_patterns` (sensitive.rs lines 277-301); unknown
locales fall back to the `EN` set. -/
def get_regional_patterns (engine : RegexEngine) (lang : List Char) : List Pattern :=
  if lang = ("zh-CN").data then CN engine
  else if lang = ("zh-TW").data then TW engine
  else if lang = ("en").data then EN engine
  else if lang = ("ja").data then JA engine
  else if lang = ("ko").data then KO engine
  else if lang = ("fr").data then FR engine
  else if lang = ("de").data then DE engine
  else if lang = ("es").data then ES engine
  else if lang = ("pt").data then PT engine
  else if lang = ("ru").data then RU engine
  else if lang = ("ar").data then AR engine
  else if lang = ("th").data then TH engine
  else if lang = ("vi").data then VI engine
  else if lang = ("it").data then IT engine
  else if lang = ("nl").data then NL engine
  else if lang = ("pl").data then PL engine
  else if lang = ("tr").data then TR engine
  else if lang = ("uk").data then UK engine
  else if lang = ("id").data then ID engine
  else if lang = ("hi").data then HI engine
  else EN engine

/-- Model of `detect_sensitive` (sensitive.rs lines 303-323).  Note the
short-circuit compares `text.len()`, the UTF-8 BYTE length, against 6. -/
def detect_sensitive (engine : RegexEngine) (text lang : List Char) : Bool :=
  if utf8LenL text < 6 then false
  else
    let lower := text.map Char.toLower
    if KEYWORDS.any (fun kw => containsSub lower kw) then true
    else if (UNIVERSAL engine).any (fun p => Pattern.matches p text) then true
    else if (get_regional_patterns engine lang).any (fun p => Pattern.matches p text) then true
    else false

/-- A degenerate engine instantiation (no pattern ever matches), used to
evaluate code paths that short-circuit before consulting any regex. -/
def noMatchEngine : RegexEngine := fun _ _ _ => none

/-! ### Concrete model of the card-number regex
`\b\d{4}[\s\-]?\d{4}[\s\-]?\d{4}[\s\-]?\d{3,4}\b` under `fancy_regex`
leftmost-match backtracking semantics (positions are character indices,
exact for ASCII text). -/

/-- Word character for the `\b` boundary (`[A-Za-z0-9_]` on ASCII text). -/
def isWordChar (c : Char) : Bool := c.isAlphanum || c = '_'

/-- Separator class `[\s\-]` of the card pattern (ASCII whitespace). -/
def isSepChar (c : Char) : Bool := c.isWhitespace || c = '-'

/-- Match exactly `n` ASCII digits starting at position `i`; return the end
position. -/
def digitsN (t : List Char) : Nat → Nat → Option Nat
  | 0, i => some i
  | n + 1, i =>
    match t.get? i with
    | some c => if c.isDigit then digitsN t n (i + 1) else none
    | none => none

/-- The `\b` boundary after a digit: the next character, if any, is not a
word character. -/
def boundaryAfter (t : List Char) (e : Nat) : Bool :=
  match t.get? e with
  | some c => !isWordChar c
  | none => true

/-- The `\b` boundary before a digit: the previous character, if any, is not
a word character (`find_from_pos` may look behind the start position). -/
def boundaryBefore (t : List Char) (i : Nat) : Bool :=
  if i = 0 then true
  else
    match t.get? (i - 1) with
    | some c => !isWordChar c
    | none => true

/-- Greedy `\d\x7b3,4\x7d\b` tail: four digits preferred, backtracking to
three. -/
def tail34 (t : List Char) (i : Nat) : Option Nat :=
  match digitsN t 4 i with
  | some e =>
    if boundaryAfter t e then some e
    else
      match digitsN t 3 i with
      | some e3 => if boundaryAfter t e3 then some e3 else none
      | none => none
  | none =>
    match digitsN t 3 i with
    | some e3 => if boundaryAfter t e3 then some e3 else none
    | none => none

/-- Greedy optional separator `[\s\-]?`: try consuming one separator first,
backtracking to consuming none. -/
def optSepThen (t : List Char) (i : Nat) (k : Nat → Option Nat) : Option Nat :=
  match t.get? i with
  | some c =>
    if isSepChar c then
      match k (i + 1) with
      | some e => some e
      | none => k i
    else k i
  | none => k i

/-- Attempt to match the card pattern anchored at position `i`; return the
end position of the match. -/
def cardMatchAt (t : List Char) (i : Nat) : Option Nat :=
  if boundaryBefore t i then
    match digitsN t 4 i with
    | some p1 =>
      optSepThen t p1 (fun q1 =>
        match digitsN t 4 q1 with
        | some p2 =>
          optSepThen t p2 (fun q2 =>
            match digitsN t 4 q2 with
            | some p3 => optSepThen t p3 (fun q3 => tail34 t q3)
            | none => none)
        | none => none)
    | none => none
  else none

/-- Leftmost-match search from a start position (decreasing counter over the
remaining candidate positions). -/
def cardFindAux (t : List Char) : Nat → Nat → Option (Nat × Nat)
  | 0, _ => none
  | gas + 1, i =>
    if t.length < i then none
    else
      match cardMatchAt t i with
      | some e => some (i, e)
      | none => cardFindAux t gas (i + 1)

/-- Model of `find_from_pos` for the card-number regex. -/
def cardFind (t : List Char) (start : Nat) : Option (Nat × Nat) :=
  cardFindAux t (t.length + 1 - start) start

/-- The card-number `Pattern` of the `UNIVERSAL` set with its concrete regex
model and the Luhn validator (sensitive.rs lines 75-78). -/
def cardPattern : Pattern := { find := cardFind, validate := some luhn_check }

/-! ### Bitmap decoder (clipboard.rs: `dib_to_png`, lines 660-806)
The function is modelled up to the final PNG encoding: it returns the
decoded RGBA raster (`image::RgbaImage`), top-down rows of pixels.  Rows
the Rust loop never writes (after the bounds `break`) keep the
zero-initialised pixel value of `RgbaImage::new`. -/

/-- One RGBA output pixel. -/
structure Rgba where
  r : Nat
  g : Nat
  b : Nat
  a : Nat
deriving DecidableEq, Repr

/-- The zero-initialised pixel of `image::RgbaImage::new`. -/
def zeroPix : Rgba := { r := 0, g := 0, b := 0, a := 0 }

/-- Little-endian `u32` read (`u32::from_le_bytes(dib[i..i+4])`); guarded by
the caller so all four bytes exist. -/
def u32le (d : List Nat) (i : Nat) : Nat :=
  d.getD i 0 + 256 * d.getD (i + 1) 0 + 65536 * d.getD (i + 2) 0 + 16777216 * d.getD (i + 3) 0

/-- Little-endian `u16` read (`u16::from_le_bytes(dib[i..i+2])`). -/
def u16le (d : List Nat) (i : Nat) : Nat := d.getD i 0 + 256 * d.getD (i + 1) 0

/-- Little-endian signed `i32` read (`i32::from_le_bytes(dib[i..i+4])`). -/
def i32le (d : List Nat) (i : Nat) : Int :=
  let v := u32le d i
  if v < 2147483648 then (v : Int) else (v : Int) - 4294967296

/-- Header field `biSize` (`dib[0..4]`). -/
def dibHeaderSize (dib : List Nat) : Nat := u32le dib 0

/-- Header field `biWidth` (`dib[4..8]`, signed). -/
def dibWidth (dib : List Nat) : Int := i32le dib 4

/-- Header field `biHeight` (`dib[8..12]`, signed; negative = top-down). -/
def dibHeight (dib : List Nat) : Int := i32le dib 8

/-- Header field `biBitCount` (`dib[14..16]`). -/
def dibBitCount (dib : List Nat) : Nat := u16le dib 14

/-- Header field `biCompression` (`dib[16..20]`). -/
def dibCompression (dib : List Nat) : Nat := u32le dib 16

/-- Header field `biClrUsed` (`dib[32..36]`). -/
def dibColorsUsed (dib : List Nat) : Nat := u32le dib 32

/-- Palette entry count: `biClrUsed`, or 256 when it is zero. -/
def dibPaletteCount (dib : List Nat) : Nat :=
  if dibColorsUsed dib = 0 then 256 else dibColorsUsed dib

/-- The pixel-data offset computed by `dib_to_png` (clipboard.rs lines
689-700): start from the header size; an 8-bit image first skips the
palette, and a `BI_BITFIELDS` image with a short header then REPLACES that
with header size + 12 (the second `if` overwrites the first). -/
def dibPixelOffset (dib : List Nat) : Nat :=
  if dibCompression dib = 3 ∧ dibHeaderSize dib < 52 then dibHeaderSize dib + 12
  else if dibBitCount dib = 8 then dibHeaderSize dib + dibPaletteCount dib * 4
  else dibHeaderSize dib

/-- Source row index for output row `y` (`src_y`): `y` when top-down,
`abs_height - 1 - y` when bottom-up. -/
def dibSrcRow (dib : List Nat) (y : Nat) : Nat :=
  if dibHeight dib < 0 then y else (dibHeight dib).natAbs - 1 - y

/-- 32-bit pixel read (clipboard.rs lines 718-725): channels in BGRA byte
order; a zero alpha byte is normalised to fully opaque 255. -/
def readPix32 (raw : List Nat) (off : Nat) : Rgba :=
  let b := raw.getD off 0
  let g := raw.getD (off + 1) 0
  let r := raw.getD (off + 2) 0
  let a := raw.getD (off + 3) 0
  { r := r, g := g, b := b, a := if a = 0 then 255 else a }

/-- 24-bit pixel read (clipboard.rs lines 737-742): BGR, opaque alpha. -/
def readPix24 (raw : List Nat) (off : Nat) : Rgba :=
  let b := raw.getD off 0
  let g := raw.getD (off + 1) 0
  let r := raw.getD (off + 2) 0
  { r := r, g := g, b := b, a := 255 }

/-- 16-bit (5-5-5) pixel read (clipboard.rs lines 754-762).  The Rust
scaling `(channel as u8 * 255 / 31)` is `u8` arithmetic, so the product
wraps modulo 256 (release-profile semantics) before the division. -/
def readPix16 (raw : List Nat) (off : Nat) : Rgba :=
  let pixel16 := u16le raw off
  let r := ((pixel16 >>> 10) &&& 0x1F) * 255 % 256 / 31
  let g := ((pixel16 >>> 5) &&& 0x1F) * 255 % 256 / 31
  let b := (pixel16 &&& 0x1F) * 255 % 256 / 31
  { r := r, g := g, b := b, a := 255 }

/-- 8-bit palette-indexed pixel read (clipboard.rs lines 784-792): a pixel
whose index falls outside the palette is left at its zero-initialised
value. -/
def readPix8 (raw palette : List Nat) (paletteCount rowStart x : Nat) : Rgba :=
  let idx := raw.getD (rowStart + x) 0
  if idx < paletteCount then
    { r := palette.getD (idx * 4 + 2) 0, g := palette.getD (idx * 4 + 1) 0,
      b := palette.getD (idx * 4) 0, a := 255 }
  else zeroPix

/-- One decoded 32-bit row. -/
def row32 (raw : List Nat) (w rowStart : Nat) : List Rgba :=
  (List.range w).map (fun x => readPix32 raw (rowStart + x * 4))

/-- One decoded 24-bit row. -/
def row24 (raw : List Nat) (w rowStart : Nat) : List Rgba :=
  (List.range w).map (fun x => readPix24 raw (rowStart + x * 3))

/-- One decoded 16-bit row. -/
def row16 (raw : List Nat) (w rowStart : Nat) : List Rgba :=
  (List.range w).map (fun x => readPix16 raw (rowStart + x * 2))

/-- One decoded 8-bit row. -/
def row8 (raw palette : List Nat) (paletteCount w rowStart : Nat) : List Rgba :=
  (List.range w).map (fun x => readPix8 raw palette paletteCount rowStart x)

/-- The `for y in 0..abs_height` loop shared by the four bit-depth branches
(clipboard.rs lines 712-716 etc.): output rows are produced top-down; a row
whose guard range `row_start + guardBytes` exceeds the pixel buffer makes
the loop `break`, leaving this and all later output rows at the
zero-initialised pixel value. -/
def buildRows (w rawLen rowBytes guardBytes absH : Nat) (topDown : Bool)
    (readRow : Nat → List Rgba) : Nat → Nat → List (List Rgba)
  | 0, _ => []
  | k + 1, y =>
    let srcY := if topDown then y else absH - 1 - y
    let rowStart := srcY * rowBytes
    if rawLen < rowStart + guardBytes then
      List.replicate (k + 1) (List.replicate w zeroPix)
    else
      readRow rowStart ::
        buildRows w rawLen rowBytes guardBytes absH topDown readRow k (y + 1)

/-- `width as u32` after the positivity check. -/
def dibW (dib : List Nat) : Nat := (dibWidth dib).toNat

/-- `height.unsigned_abs()`. -/
def dibAbsH (dib : List Nat) : Nat := (dibHeight dib).natAbs

/-- `let top_down = height < 0`. -/
def dibTopDown (dib : List Nat) : Bool := decide (dibHeight dib < 0)

/-- `let pixels_raw = &dib[pixel_offset..]`. -/
def dibRaw (dib : List Nat) : List Nat := dib.drop (dibPixelOffset dib)

/-- The palette slice `&dib[palette_start..palette_start + palette_count*4]`
of the 8-bit branch. -/
def dibPalette (dib : List Nat) : List Nat :=
  (dib.drop (dibHeaderSize dib)).take (dibPaletteCount dib * 4)

/-- The raster produced by the 32-bit branch (row bytes `w * 4`, guard
`row_start + row_bytes`). -/
def dibRows32 (dib : List Nat) : List (List Rgba) :=
  buildRows (dibW dib) (dibRaw dib).length (dibW dib * 4) (dibW dib * 4)
    (dibAbsH dib) (dibTopDown dib) (row32 (dibRaw dib) (dibW dib)) (dibAbsH dib) 0

/-- The raster produced by the 24-bit branch (row bytes padded to 4, guard
`row_start + w * 3`). -/
def dibRows24 (dib : List Nat) : List (List Rgba) :=
  buildRows (dibW dib) (dibRaw dib).length
    ((dibW dib * 3 + 3) - (dibW dib * 3 + 3) % 4) (dibW dib * 3)
    (dibAbsH dib) (dibTopDown dib) (row24 (dibRaw dib) (dibW dib)) (dibAbsH dib) 0

/-- The raster produced by the 16-bit branch (row bytes padded to 4, guard
`row_start + w * 2`). -/
def dibRows16 (dib : List Nat) : List (List Rgba) :=
  buildRows (dibW dib) (dibRaw dib).length
    ((dibW dib * 2 + 3) - (dibW dib * 2 + 3) % 4) (dibW dib * 2)
    (dibAbsH dib) (dibTopDown dib) (row16 (dibRaw dib) (dibW dib)) (dibAbsH dib) 0

/-- The raster produced by the 8-bit branch (row bytes padded to 4, guard
`row_start + w`). -/
def dibRows8 (dib : List Nat) : List (List Rgba) :=
  buildRows (dibW dib) (dibRaw dib).length ((dibW dib + 3) - (dibW dib + 3) % 4)
    (dibW dib) (dibAbsH dib) (dibTopDown dib)
    (row8 (dibRaw dib) (dibPalette dib) (dibPaletteCount dib) (dibW dib))
    (dibAbsH dib) 0

/-- Model of `dib_to_png` (clipboard.rs lines 660-806) up to the decoded
RGBA raster.  The final `match bit_count` of the source is rendered as an
if-chain on `dibBitCount`; PNG encoding of the raster (external `image`
crate) cannot fail and is elided. -/
def dib_to_png (dib : List Nat) : Option (List (List Rgba)) :=
  if dib.length < 40 then none
  else if dibWidth dib ≤ 0 ∨ 4096 < dibWidth dib ∨ dibHeight dib = 0 ∨
      4096 < (dibHeight dib).natAbs then none
  else if 16000000 < (dibWidth dib).toNat * (dibHeight dib).natAbs then none
  else if dibCompression dib ≠ 0 ∧ dibCompression dib ≠ 3 then none
  else if dib.length ≤ dibPixelOffset dib then none
  else if dibBitCount dib = 32 then some (dibRows32 dib)
  else if dibBitCount dib = 24 then some (dibRows24 dib)
  else if dibBitCount dib = 16 then some (dibRows16 dib)
  else if dibBitCount dib = 8 then
    if dib.length < dibHeaderSize dib + dibPaletteCount dib * 4 then none
    else some (dibRows8 dib)
  else none

/-! ### Checked-access variant of the bitmap decoder
Rust slice indexing panics when out of bounds; the variant below makes
every pixel-buffer access explicit (`Except.error` = a Rust index panic).
The agreement theorem for claim C6 shows it never errors: every access the
decoder performs is within bounds for every input buffer. -/

/-- Checked byte read: `Except.error` models a Rust out-of-bounds panic. -/
def getE (raw : List Nat) (i : Nat) : Except Unit Nat :=
  match raw.get? i with
  | some v => Except.ok v
  | none => Except.error ()

/-- Checked little-endian `u32` read. -/
def u32leE (d : List Nat) (i : Nat) : Except Unit Nat := do
  let b0 ← getE d i
  let b1 ← getE d (i + 1)
  let b2 ← getE d (i + 2)
  let b3 ← getE d (i + 3)
  return b0 + 256 * b1 + 65536 * b2 + 16777216 * b3

/-- Checked little-endian `u16` read. -/
def u16leE (d : List Nat) (i : Nat) : Except Unit Nat := do
  let b0 ← getE d i
  let b1 ← getE d (i + 1)
  return b0 + 256 * b1

/-- Checked little-endian `i32` read. -/
def i32leE (d : List Nat) (i : Nat) : Except Unit Int := do
  let v ← u32leE d i
  return (if v < 2147483648 then (v : Int) else (v : Int) - 4294967296)

/-- Effectful list map over checked reads. -/
def mapME {α β : Type} (f : α → Except Unit β) : List α → Except Unit (List β)
  | [] => Except.ok []
  | a :: t => do
    let b ← f a
    let bs ← mapME f t
    return (b :: bs)

/-- Checked 32-bit pixel read. -/
def readPix32E (raw : List Nat) (off : Nat) : Except Unit Rgba := do
  let b ← getE raw off
  let g ← getE raw (off + 1)
  let r ← getE raw (off + 2)
  let a ← getE raw (off + 3)
  return { r := r, g := g, b := b, a := if a = 0 then 255 else a }

/-- Checked 24-bit pixel read. -/
def readPix24E (raw : List Nat) (off : Nat) : Except Unit Rgba := do
  let b ← getE raw off
  let g ← getE raw (off + 1)
  let r ← getE raw (off + 2)
  return { r := r, g := g, b := b, a := 255 }

/-- Checked 16-bit pixel read. -/
def readPix16E (raw : List Nat) (off : Nat) : Except Unit Rgba := do
  let b0 ← getE raw off
  let b1 ← getE raw (off + 1)
  let pixel16 := b0 + 256 * b1
  return { r := ((pixel16 >>> 10) &&& 0x1F) * 255 % 256 / 31,
           g := ((pixel16 >>> 5) &&& 0x1F) * 255 % 256 / 31,
           b := (pixel16 &&& 0x1F) * 255 % 256 / 31, a := 255 }

/-- Checked 8-bit pixel read (the palette access is also checked). -/
def readPix8E (raw palette : List Nat) (paletteCount rowStart x : Nat) :
    Except Unit Rgba := do
  let idx ← getE raw (rowStart + x)
  if idx < paletteCount then do
    let b ← getE palette (idx * 4)
    let g ← getE palette (idx * 4 + 1)
    let r ← getE palette (idx * 4 + 2)
    return { r := r, g := g, b := b, a := 255 }
  else return zeroPix

/-- Checked 32-bit row. -/
def row32E (raw : List Nat) (w rowStart : Nat) : Except Unit (List Rgba) :=
  mapME (fun x => readPix32E raw (rowStart + x * 4)) (List.range w)

/-- Checked 24-bit row. -/
def row24E (raw : List Nat) (w rowStart : Nat) : Except Unit (List Rgba) :=
  mapME (fun x => readPix24E raw (rowStart + x * 3)) (List.range w)

/-- Checked 16-bit row. -/
def row16E (raw : List Nat) (w rowStart : Nat) : Except Unit (List Rgba) :=
  mapME (fun x => readPix16E raw (rowStart + x * 2)) (List.range w)

/-- Checked 8-bit row. -/
def row8E (raw palette : List Nat) (paletteCount w rowStart : Nat) :
    Except Unit (List Rgba) :=
  mapME (fun x => readPix8E raw palette paletteCount rowStart x) (List.range w)

/-- Checked row loop. -/
def buildRowsE (w rawLen rowBytes guardBytes absH : Nat) (topDown : Bool)
    (readRowE : Nat → Except Unit (List Rgba)) :
    Nat → Nat → Except Unit (List (List Rgba))
  | 0, _ => Except.ok []
  | k + 1, y => do
    let srcY := if topDown then y else absH - 1 - y
    let rowStart := srcY * rowBytes
    if rawLen < rowStart + guardBytes then
      return List.replicate (k + 1) (List.replicate w zeroPix)
    else do
      let row ← readRowE rowStart
      let rest ← buildRowsE w rawLen rowBytes guardBytes absH topDown readRowE k (y + 1)
      return (row :: rest)

/-- Checked-access variant of `dib_to_png`: every buffer read is explicit
and an out-of-range read aborts with `Except.error` (the model of a Rust
slice-index panic).  The `biClrUsed` bytes, which the source reads only on
the 8-bit paths, are checked-read unconditionally here — a conservative
superset of the accesses the source performs, all within the 40 guaranteed
header bytes. -/
def dibToPngE (dib : List Nat) : Except Unit (Option (List (List Rgba))) :=
  if dib.length < 40 then Except.ok none
  else do
    let _headerSize ← u32leE dib 0
    let width ← i32leE dib 4
    let height ← i32leE dib 8
    let bitCount ← u16leE dib 14
    let compression ← u32leE dib 16
    let _colorsUsed ← u32leE dib 32
    if width ≤ 0 ∨ 4096 < width ∨ height = 0 ∨ 4096 < height.natAbs then
      return none
    else if 16000000 < width.toNat * height.natAbs then return none
    else if compression ≠ 0 ∧ compression ≠ 3 then return none
    else if dib.length ≤ dibPixelOffset dib then return none
    else if bitCount = 32 then do
      let rows ← buildRowsE (dibW dib) (dibRaw dib).length (dibW dib * 4)
        (dibW dib * 4) (dibAbsH dib) (dibTopDown dib)
        (row32E (dibRaw dib) (dibW dib)) (dibAbsH dib) 0
      return (some rows)
    else if bitCount = 24 then do
      let rows ← buildRowsE (dibW dib) (dibRaw dib).length
        ((dibW dib * 3 + 3) - (dibW dib * 3 + 3) % 4) (dibW dib * 3)
        (dibAbsH dib) (dibTopDown dib) (row24E (dibRaw dib) (dibW dib))
        (dibAbsH dib) 0
      return (some rows)
    else if bitCount = 16 then do
      let rows ← buildRowsE (dibW dib) (dibRaw dib).length
        ((dibW dib * 2 + 3) - (dibW dib * 2 + 3) % 4) (dibW dib * 2)
        (dibAbsH dib) (dibTopDown dib) (row16E (dibRaw dib) (dibW dib))
        (dibAbsH dib) 0
      return (some rows)
    else if bitCount = 8 then
      if dib.length < dibHeaderSize dib + dibPaletteCount dib * 4 then return none
      else do
        let rows ← buildRowsE (dibW dib) (dibRaw dib).length
          ((dibW dib + 3) - (dibW dib + 3) % 4) (dibW dib) (dibAbsH dib)
          (dibTopDown dib)
          (row8E (dibRaw dib) (dibPalette dib) (dibPaletteCount dib) (dibW dib))
          (dibAbsH dib) 0
        return (some rows)
    else return none

/-- Absolute byte offset inside the DIB buffer of the 32-bit pixel for
output row `y`, column `x`. -/
def dib32Offset (dib : List Nat) (y x : Nat) : Nat :=
  dibPixelOffset dib + dibSrcRow dib y * ((dibWidth dib).toNat * 4) + x * 4

/-! ### Format extractor (clipboard.rs: `read_clipboard_content`,
`try_read_clipboard_image`, lines 447-657)
The Win32 clipboard session is abstracted as a record of what each format
would deliver: the lossy-decoded "HTML Format" payload, the UTF-16-decoded
Unicode text (already truncated at the first NUL, as the Rust code does
before `from_utf16_lossy`), the raw `CF_TEXT` bytes, the two registered PNG
format payloads, and the raw `CF_DIBV5`/`CF_DIB` buffers.  `openOk = false`
models `OpenClipboard` failing all 5 retries. -/

/-- Abstract clipboard session contents. -/
structure ClipboardState where
  openOk : Bool
  htmlData : Option (List Char)
  unicodeText : Option (List Char)
  ansiBytes : Option (List Nat)
  png1 : Option (List Nat)
  png2 : Option (List Nat)
  dibv5 : Option (List Nat)
  dib : Option (List Nat)

/-- The image payload an extraction can produce: raw PNG bytes from a PNG
format, or the PNG encoding of a decoded DIB raster (the encoding itself,
performed by the external `image` crate, is kept abstract). -/
inductive ImageData where
  | png (bytes : List Nat)
  | raster (rows : List (List Rgba))
deriving DecidableEq

/-- The extraction result (struct `ClipboardContent`, clipboard.rs lines
447-453). -/
structure ClipboardContent where
  text : Option (List Char)
  image : Option ImageData
  source_url : Option (List Char)
  html : Option (List Char)

/-- A registered PNG-format payload is accepted when it is longer than 8
bytes and starts with the PNG magic (clipboard.rs lines 601-617). -/
def pngCandidate (d : Option (List Nat)) : Option (List Nat) :=
  match d with
  | some data =>
    if 8 < data.length ∧ List.isPrefixOf [0x89, 0x50, 0x4E, 0x47] data then some data
    else none
  | none => none

/-- The `CF_DIB` fallback of `try_read_clipboard_image` (clipboard.rs lines
641-654): its decode result is returned directly, even when `none`. -/
def tryDib (d : Option (List Nat)) : Option ImageData :=
  match d with
  | some data =>
    if 0 < data.length then (dib_to_png data).map ImageData.raster else none
  | none => none

/-- Model of `try_read_clipboard_image` (clipboard.rs lines 590-657):
PNG formats first, then `CF_DIBV5`, then `CF_DIB`; a failed `CF_DIBV5`
decode falls through to `CF_DIB`. -/
def try_read_clipboard_image (s : ClipboardState) : Option ImageData :=
  match pngCandidate s.png1 with
  | some d => some (ImageData.png d)
  | none =>
    match pngCandidate s.png2 with
    | some d => some (ImageData.png d)
    | none =>
      match s.dibv5 with
      | some data =>
        if 0 < data.length then
          match dib_to_png data with
          | some rows => some (ImageData.raster rows)
          | none => tryDib s.dib
        else tryDib s.dib
      | none => tryDib s.dib

/-- Continuation-byte test of strict UTF-8 validation. -/
def isCont (b : Nat) : Bool := 0x80 ≤ b ∧ b ≤ 0xBF

/-- Strict UTF-8 decoding of a byte list; model of Rust
`std::str::from_utf8` (None = invalid UTF-8), covering overlong-encoding,
surrogate and out-of-range rejection via the standard first/second byte
ranges. -/
def utf8Decode : List Nat → Option (List Char)
  | [] => some []
  | b :: rest =>
    if b < 0x80 then
      match utf8Decode rest with
      | some cs => some (Char.ofNat b :: cs)
      | none => none
    else if 0xC2 ≤ b ∧ b ≤ 0xDF then
      match rest with
      | b1 :: rest1 =>
        if isCont b1 then
          match utf8Decode rest1 with
          | some cs => some (Char.ofNat ((b - 0xC0) * 64 + (b1 - 0x80)) :: cs)
          | none => none
        else none
      | [] => none
    else if 0xE0 ≤ b ∧ b ≤ 0xEF then
      match rest with
      | b1 :: b2 :: rest2 =>
        if (if b = 0xE0 then 0xA0 ≤ b1 ∧ b1 ≤ 0xBF
            else if b = 0xED then 0x80 ≤ b1 ∧ b1 ≤ 0x9F
            else isCont b1 = true) ∧ isCont b2 then
          match utf8Decode rest2 with
          | some cs =>
            some (Char.ofNat ((b - 0xE0) * 4096 + (b1 - 0x80) * 64 + (b2 - 0x80)) :: cs)
          | none => none
        else none
      | _ => none
    else if 0xF0 ≤ b ∧ b ≤ 0xF4 then
      match rest with
      | b1 :: b2 :: b3 :: rest3 =>
        if (if b = 0xF0 then 0x90 ≤ b1 ∧ b1 ≤ 0xBF
            else if b = 0xF4 then 0x80 ≤ b1 ∧ b1 ≤ 0x8F
            else isCont b1 = true) ∧ isCont b2 ∧ isCont b3 then
          match utf8Decode rest3 with
          | some cs =>
            some (Char.ofNat ((b - 0xF0) * 262144 + (b1 - 0x80) * 4096 +
              (b2 - 0x80) * 64 + (b3 - 0x80)) :: cs)
          | none => none
        else none
      | _ => none
    else none

/-- The `CF_TEXT` decode (clipboard.rs lines 566-570): UTF-8 first, falling
back to the Latin-1-style `b as char` mapping. -/
def utf8OrLatin1 (bytes : List Nat) : List Char :=
  match utf8Decode bytes with
  | some s => s
  | none => bytes.map (fun b => Char.ofNat b)

/-- Model of the `SourceURL:` header scan (clipboard.rs lines 502-510):
first line whose `SourceURL:` value trims to something non-empty wins. -/
def parseSourceURL : List (List Char) → Option (List Char)
  | [] => none
  | line :: rest =>
    match strip_front (("SourceURL:").data) line with
    | some v =>
      let url := trimL v
      if url = [] then parseSourceURL rest else some url
    | none => parseSourceURL rest

/-- Model of the `StartFragment:`/`EndFragment:` scan (clipboard.rs lines
513-522): every matching line overwrites the stored value, parse failures
included. -/
def fragBounds (ls : List (List Char)) : Option Nat × Option Nat :=
  ls.foldl
    (fun acc line =>
      let a :=
        match strip_front (("StartFragment:").data) line with
        | some v => parse_usize (trimL v)
        | none => acc.1
      let b :=
        match strip_front (("EndFragment:").data) line with
        | some v => parse_usize (trimL v)
        | none => acc.2
      (a, b))
    (none, none)

/-- Maximum text size, clipboard.rs line 194. -/
def MAX_TEXT_BYTES : Nat := 5 * 1024 * 1024

/-- Model of the HTML fragment extraction (clipboard.rs lines 523-530);
the byte offsets of the header are applied as character positions of the
decoded payload (exact for ASCII payloads). -/
def extractHtmlFrag (data : List Char) : Option (List Char) :=
  match fragBounds (linesL data) with
  | (some s, some e) =>
    if s < e ∧ e ≤ data.length then
      let fragment := (data.drop s).take (e - s)
      if trimL fragment ≠ [] ∧ utf8LenL fragment ≤ MAX_TEXT_BYTES then some fragment
      else none
    else none
  | _ => none

/-- The `source_url`/`html` pair produced from the "HTML Format" payload
(clipboard.rs lines 488-535). -/
def html_fields (s : ClipboardState) : Option (List Char) × Option (List Char) :=
  match s.htmlData with
  | some data =>
    if data = [] then (none, none)
    else (parseSourceURL (linesL data), extractHtmlFrag data)
  | none => (none, none)

/-- The text field after the `CF_UNICODETEXT` read and the `CF_TEXT`
fallback (clipboard.rs lines 537-576). -/
def text_field (s : ClipboardState) : Option (List Char) :=
  let textU : Option (List Char) :=
    match s.unicodeText with
    | some t => if utf8LenL t ≤ MAX_TEXT_BYTES then some t else none
    | none => none
  match textU with
  | some t => some t
  | none =>
    match s.ansiBytes with
    | some data =>
      if 0 < data.length then
        let bytes := data.takeWhile (fun b => b ≠ 0)
        if bytes.length ≤ MAX_TEXT_BYTES then some (utf8OrLatin1 bytes) else none
      else none
    | none => none

/-- `result.text.as_ref().map_or(true, |t| t.trim().is_empty())`
(clipboard.rs line 579). -/
def blankOpt (t : Option (List Char)) : Bool :=
  match t with
  | some t0 => trimL t0 = []
  | none => true

/-- The image field: image extraction runs only when no usable (non-blank)
text was obtained (clipboard.rs lines 578-581). -/
def image_field (s : ClipboardState) : Option ImageData :=
  if blankOpt (text_field s) then try_read_clipboard_image s else none

/-- Model of `read_clipboard_content` (clipboard.rs lines 470-587).  When
the clipboard cannot be opened after 5 retries the empty bundle is
returned. -/
def read_clipboard_content (s : ClipboardState) : ClipboardContent :=
  if s.openOk = false then
    { text := none, image := none, source_url := none, html := none }
  else
    { text := text_field s, image := image_field s,
      source_url := (html_fields s).1, html := (html_fields s).2 }

/-- Model of the source-URL reconciliation in `on_clipboard_change`
(clipboard.rs lines 317-334): keep the header URL only when it starts with
`http://` or `https://`; otherwise, adopt the trimmed text when it is a
single-line http(s) URL. -/
def reconcile_source_url (sourceUrl text : Option (List Char)) : Option (List Char) :=
  let kept :=
    match sourceUrl with
    | some url =>
      if ¬ (List.isPrefixOf (("http://").data) url ∨
            List.isPrefixOf (("https://").data) url) then none
      else some url
    | none => none
  match kept with
  | some u => some u
  | none =>
    match text with
    | some t =>
      let trimmed := trimL t
      if (List.isPrefixOf (("http://").data) trimmed ∨
          List.isPrefixOf (("https://").data) trimmed) ∧
          ¬ trimmed.contains '\n' then some trimmed
      else none
    | none => none

/-! ### Change-monitor settled-event admission (clipboard.rs:
`on_clipboard_change`, lines 290-311) -/

/-- Model of `window_tracker::AppWindowInfo` (window_tracker.rs lines
50-55). -/
structure AppWindowInfo where
  name : List Char
  exe_path : List Char
  icon_base64 : Option (List Char)
  is_self : Bool

/-- The foreground-identity resolution of `on_clipboard_change` (clipboard.rs
lines 301-307): the pending identity captured at raw-signal time takes
precedence; a missing pending identity falls back to a fresh lookup. -/
def resolve_app_info (pending foreground : Option AppWindowInfo) :
    Option AppWindowInfo :=
  match pending with
  | some info => some info
  | none => foreground

/-- The admission gate a settled event must pass before extraction runs
(clipboard.rs lines 290-311): the self-write `IGNORE_NEXT` flag, then the
identity resolution — `None` aborts processing — then the self-origin
check.  Returns the admitted identity, or `none` when the event is
discarded. -/
def settled_event_admits (ignoreNext : Bool) (pending foreground : Option AppWindowInfo) :
    Option AppWindowInfo :=
  if ignoreNext then none
  else
    match resolve_app_info pending foreground with
    | none => none
    | some info => if info.is_self then none else some info

/-! ### Concrete inputs used by counterexamples and witnesses -/

/-- A 40-byte DIB: header size 40, width 1, height 1, 32 bpp, `BI_RGB` —
every header check passes, yet the pixel-data offset (40) is not below the
buffer length (40), so decoding returns `none`. -/
def dibC5 : List Nat :=
  [40, 0, 0, 0, 1, 0, 0, 0, 1, 0, 0, 0, 1, 0, 32, 0, 0, 0, 0, 0] ++
    List.replicate 20 0

/-- A 44-byte 32-bpp 1x1 DIB whose single pixel is stored as BGRA bytes
`[10, 20, 30, 0]` (zero source alpha). -/
def dib44 : List Nat :=
  [40, 0, 0, 0, 1, 0, 0, 0, 1, 0, 0, 0, 1, 0, 32, 0, 0, 0, 0, 0] ++
    List.replicate 20 0 ++ [10, 20, 30, 0]

/-- A clipboard session holding only non-blank Unicode text. -/
def sampleTextState : ClipboardState :=
  { openOk := true, htmlData := none, unicodeText := some (("hi").data),
    ansiBytes := none, png1 := none, png2 := none, dibv5 := none, dib := none }

/-- A clipboard session holding only a (magic-valid) PNG payload. -/
def samplePngState : ClipboardState :=
  { openOk := true, htmlData := none, unicodeText := none, ansiBytes := none,
    png1 := some [0x89, 0x50, 0x4E, 0x47, 0x0D, 0x0A, 0x1A, 0x0A, 0x00],
    png2 := none, dibv5 := none, dib := none }

/-! ## Helper lemmas -/

/-- A digest always prints as exactly 16 hexadecimal characters. -/
theorem toHex16_length (n : Nat) : (toHex16 n).length = 16 := by
  simp [toHex16]

/-- The FNV-1a accumulator stays below `2 ^ 64` whatever the seed below
`2 ^ 64`. -/
theorem fnv1a_fold_lt (l : List Nat) :
    ∀ h : Nat, h < 2 ^ 64 → List.foldl fnvStep h l < 2 ^ 64 := by
  induction l with
  | nil => intro h hh; simpa using hh
  | cons b t ih =>
    intro h hh
    exact ih (fnvStep h b) (Nat.mod_lt _ (by norm_num))

/-- The digest value is a 64-bit quantity. -/
theorem fnv1a_lt (data : List Nat) : fnv1a data < 2 ^ 64 :=
  fnv1a_fold_lt data _ (by norm_num [fnv1a])

/-- A content fingerprint is never the empty string (the initial gate
state). -/
theorem compute_content_hash_ne_nil (data : List Nat) :
    compute_content_hash data ≠ [] := by
  intro h
  have hl : (compute_content_hash data).length = 16 := toHex16_length _
  rw [h] at hl
  simp at hl

/-- Past the end of the text the scanning loop returns false for every
counter value. -/
theorem matchesFromAux_out (p : Pattern) (t : List Char) :
    ∀ gas start : Nat, t.length ≤ start → matchesFromAux p t gas start = false := by
  intro gas start h
  cases gas with
  | zero => rfl
  | succ a => simp [matchesFromAux, Nat.not_lt.mpr h]

/-- The scanning loop of `Pattern.matches` does not depend on the value of
its decreasing counter, provided the counter exceeds the number of
positions left to scan. -/
theorem matchesFromAux_congr (p : Pattern) (t : List Char) :
    ∀ g1 g2 start : Nat, t.length - start < g1 → t.length - start < g2 →
      matchesFromAux p t g1 start = matchesFromAux p t g2 start := by
  intro g1
  induction g1 with
  | zero => intro g2 start h1 _; omega
  | succ a ih =>
    intro g2 start h1 h2
    match g2 with
    | 0 => omega
    | b + 1 =>
      simp only [matchesFromAux]
      by_cases hs : start < t.length
      · simp only [hs, if_true]
        cases hfind : p.find t start with
        | none => rfl
        | some se =>
          obtain ⟨s, e⟩ := se
          cases hv : p.validate with
          | none => rfl
          | some v =>
            by_cases hacc : v (subL t s e) = true
            · simp [hacc]
            · simp only [hacc, if_false, Bool.false_eq_true]
              have hmax : start + 1 ≤ Nat.max e (start + 1) := Nat.le_max_right _ _
              exact ih b (Nat.max e (start + 1)) (by omega) (by omega)
      · simp [hs]

/-- Checked byte reads succeed inside the buffer and agree with the
`getD`-based reads of the plain model. -/
theorem getE_ok (raw : List Nat) (i : Nat) (h : i < raw.length) :
    getE raw i = Except.ok (raw.getD i 0) := by
  simp [getE, List.get?_eq_getElem?, List.getElem?_eq_getElem h,
    List.getD_eq_getElem?_getD]

/-- Bind on a successful checked read reduces. -/
theorem except_bind_ok {α β : Type} (a : α) (f : α → Except Unit β) :
    (Except.ok a >>= f) = f a := rfl

/-- Checked mapping over a list of always-successful reads. -/
theorem mapME_ok {α β : Type} (f : α → Except Unit β) (g : α → β) :
    ∀ l : List α, (∀ a ∈ l, f a = Except.ok (g a)) →
      mapME f l = Except.ok (l.map g) := by
  intro l
  induction l with
  | nil => intro _; rfl
  | cons a t ih =>
    intro h
    rw [mapME, h a (by simp), ih (fun x hx => h x (by simp [hx]))]
    rfl

/-- Checked `u32` header read agreement. -/
theorem u32leE_ok (d : List Nat) (i : Nat) (h : i + 4 ≤ d.length) :
    u32leE d i = Except.ok (u32le d i) := by
  rw [u32leE, getE_ok d i (by omega), getE_ok d (i + 1) (by omega),
    getE_ok d (i + 2) (by omega), getE_ok d (i + 3) (by omega)]
  rfl

/-- Checked `u16` header read agreement. -/
theorem u16leE_ok (d : List Nat) (i : Nat) (h : i + 2 ≤ d.length) :
    u16leE d i = Except.ok (u16le d i) := by
  rw [u16leE, getE_ok d i (by omega), getE_ok d (i + 1) (by omega)]
  rfl

/-- Checked `i32` header read agreement. -/
theorem i32leE_ok (d : List Nat) (i : Nat) (h : i + 4 ≤ d.length) :
    i32leE d i = Except.ok (i32le d i) := by
  rw [i32leE, u32leE_ok d i h]
  rfl

/-- Checked 32-bit pixel read agreement. -/
theorem readPix32E_ok (raw : List Nat) (off : Nat) (h : off + 4 ≤ raw.length) :
    readPix32E raw off = Except.ok (readPix32 raw off) := by
  rw [readPix32E, getE_ok raw off (by omega), getE_ok raw (off + 1) (by omega),
    getE_ok raw (off + 2) (by omega), getE_ok raw (off + 3) (by omega)]
  rfl

/-- Checked 24-bit pixel read agreement. -/
theorem readPix24E_ok (raw : List Nat) (off : Nat) (h : off + 3 ≤ raw.length) :
    readPix24E raw off = Except.ok (readPix24 raw off) := by
  rw [readPix24E, getE_ok raw off (by omega), getE_ok raw (off + 1) (by omega),
    getE_ok raw (off + 2) (by omega)]
  rfl

/-- Checked 16-bit pixel read agreement. -/
theorem readPix16E_ok (raw : List Nat) (off : Nat) (h : off + 2 ≤ raw.length) :
    readPix16E raw off = Except.ok (readPix16 raw off) := by
  rw [readPix16E, getE_ok raw off (by omega), getE_ok raw (off + 1) (by omega)]
  rfl

/-- Checked 8-bit pixel read agreement: the row guard bounds the index
byte, and a validated palette index stays inside the palette slice. -/
theorem readPix8E_ok (raw palette : List Nat) (paletteCount rowStart x : Nat)
    (hidx : rowStart + x < raw.length)
    (hpal : paletteCount * 4 ≤ palette.length) :
    readPix8E raw palette paletteCount rowStart x =
      Except.ok (readPix8 raw palette paletteCount rowStart x) := by
  simp only [readPix8E, readPix8]
  rw [getE_ok raw (rowStart + x) hidx, except_bind_ok]
  by_cases hlt : raw.getD (rowStart + x) 0 < paletteCount
  · rw [if_pos hlt, if_pos hlt]
    rw [getE_ok palette _ (by omega), except_bind_ok,
      getE_ok palette _ (by omega), except_bind_ok,
      getE_ok palette _ (by omega), except_bind_ok]
    rfl
  · rw [if_neg hlt, if_neg hlt]
    rfl

/-- Checked 32-bit row agreement under the row guard. -/
theorem row32E_ok (raw : List Nat) (w rowStart : Nat)
    (h : rowStart + w * 4 ≤ raw.length) :
    row32E raw w rowStart = Except.ok (row32 raw w rowStart) := by
  apply mapME_ok
  intro x hx
  have hxw : x < w := List.mem_range.mp hx
  exact readPix32E_ok raw (rowStart + x * 4) (by omega)

/-- Checked 24-bit row agreement under the row guard. -/
theorem row24E_ok (raw : List Nat) (w rowStart : Nat)
    (h : rowStart + w * 3 ≤ raw.length) :
    row24E raw w rowStart = Except.ok (row24 raw w rowStart) := by
  apply mapME_ok
  intro x hx
  have hxw : x < w := List.mem_range.mp hx
  exact readPix24E_ok raw (rowStart + x * 3) (by omega)

/-- Checked 16-bit row agreement under the row guard. -/
theorem row16E_ok (raw : List Nat) (w rowStart : Nat)
    (h : rowStart + w * 2 ≤ raw.length) :
    row16E raw w rowStart = Except.ok (row16 raw w rowStart) := by
  apply mapME_ok
  intro x hx
  have hxw : x < w := List.mem_range.mp hx
  exact readPix16E_ok raw (rowStart + x * 2) (by omega)

/-- Checked 8-bit row agreement under the row guard. -/
theorem row8E_ok (raw palette : List Nat) (paletteCount w rowStart : Nat)
    (h : rowStart + w ≤ raw.length)
    (hpal : paletteCount * 4 ≤ palette.length) :
    row8E raw palette paletteCount w rowStart =
      Except.ok (row8 raw palette paletteCount w rowStart) := by
  apply mapME_ok
  intro x hx
  have hxw : x < w := List.mem_range.mp hx
  exact readPix8E_ok raw palette paletteCount rowStart x (by omega) hpal

/-- Checked row-loop agreement, given that each guarded row reads
successfully. -/
theorem buildRowsE_eq (w rawLen rowBytes guardBytes absH : Nat) (td : Bool)
    (readRow : Nat → List Rgba) (readRowE : Nat → Except Unit (List Rgba))
    (hrow : ∀ rs, rs + guardBytes ≤ rawLen → readRowE rs = Except.ok (readRow rs)) :
    ∀ k y, buildRowsE w rawLen rowBytes guardBytes absH td readRowE k y =
      Except.ok (buildRows w rawLen rowBytes guardBytes absH td readRow k y) := by
  intro k
  induction k with
  | zero => intro y; rfl
  | succ a ih =>
    intro y
    rw [buildRowsE, buildRows]
    by_cases hg : rawLen < (if td then y else absH - 1 - y) * rowBytes + guardBytes
    · simp only [hg, if_true]
      rfl
    · simp only [hg, if_false]
      rw [hrow _ (by omega), except_bind_ok, ih (y + 1), except_bind_ok]
      rfl

/-- Indexing a drop shifts the index. -/
theorem getD_drop (l : List Nat) (n i : Nat) :
    (l.drop n).getD i 0 = l.getD (n + i) 0 := by
  rw [List.getD_eq_getElem?_getD, List.getD_eq_getElem?_getD, List.getElem?_drop]

/-- Indexing a mapped range applies the function to the index. -/
theorem range_map_getD {α : Type} (f : Nat → α) (w x : Nat) (d : α)
    (h : x < w) : ((List.range w).map f).getD x d = f x := by
  rw [List.getD_eq_getElem?_getD, List.getElem?_map, List.getElem?_range h]
  rfl

/-- The `if`-on-`decide` form used inside `dib_to_png` agrees with
`dibSrcRow`. -/
theorem srcRow_decide (dib : List Nat) (y : Nat) :
    (if decide (dibHeight dib < 0) = true then y else (dibHeight dib).natAbs - 1 - y) =
      dibSrcRow dib y := by
  by_cases h : dibHeight dib < 0 <;> simp [dibSrcRow, h]

/-- Row `j` of the output raster, when every row up to `j` satisfies the
bounds guard, is the row the reader produces at its source row offset. -/
theorem buildRows_getD (w rawLen rowBytes guardBytes absH : Nat) (td : Bool)
    (readRow : Nat → List Rgba) :
    ∀ k y0 j, j < k →
      (∀ i, i ≤ j →
        (if td then y0 + i else absH - 1 - (y0 + i)) * rowBytes + guardBytes ≤ rawLen) →
      (buildRows w rawLen rowBytes guardBytes absH td readRow k y0).getD j [] =
        readRow ((if td then y0 + j else absH - 1 - (y0 + j)) * rowBytes) := by
  intro k
  induction k with
  | zero => intro y0 j hj _; omega
  | succ a ih =>
    intro y0 j hj hfit
    rw [buildRows]
    have h0 := hfit 0 (Nat.zero_le _)
    rw [Nat.add_zero] at h0
    have hg : ¬ (rawLen < (if td then y0 else absH - 1 - y0) * rowBytes + guardBytes) := by
      omega
    simp only [hg, if_false]
    cases j with
    | zero => simp
    | succ jj =>
      rw [List.getD_cons_succ]
      rw [ih (y0 + 1) jj (by omega) (fun i hi => by
        have := hfit (i + 1) (by omega)
        rw [show y0 + (i + 1) = y0 + 1 + i from by omega] at this
        exact this)]
      rw [show y0 + 1 + jj = y0 + (jj + 1) from by omega]

/-! ## Claim theorems -/

/-- C1: the dedup gate is last-value-only.  A digest equal to the stored
one is suppressed and leaves the state unchanged; otherwise the digest
replaces the state and the content is processed; on fingerprints of
contents `[A, A, B, A]` with distinct fingerprints the suppress flags are
`[false, true, false, false]`; and the initial empty state never equals a
fingerprint, since fingerprints are 16-character hex strings. -/
theorem c1_dedup_last_value_only :
    (∀ last digest : List Char, last = digest →
      should_suppress last digest = (true, last)) ∧
    (∀ last digest : List Char, last ≠ digest →
      should_suppress last digest = (false, digest)) ∧
    (∀ a b : List Nat, compute_content_hash a ≠ compute_content_hash b →
      gate_run [] [compute_content_hash a, compute_content_hash a,
        compute_content_hash b, compute_content_hash a] =
        [false, true, false, false]) ∧
    (∀ c : List Nat, compute_content_hash c ≠ []) := by
  refine ⟨?_, ?_, ?_, compute_content_hash_ne_nil⟩
  · intro last digest h
    simp [should_suppress, h]
  · intro last digest h
    simp [should_suppress, h]
  · intro a b hab
    have hA : ([] : List Char) ≠ compute_content_hash a :=
      fun h => compute_content_hash_ne_nil a h.symm
    have hba : compute_content_hash b ≠ compute_content_hash a := Ne.symm hab
    simp [gate_run, should_suppress, hA, hab, hba]

/-- C1 witness: two one-byte contents with distinct fingerprints drive the
gate through the `[A, A, B, A]` schedule. -/
theorem c1_dedup_last_value_only_witness :
    gate_run [] [compute_content_hash [0], compute_content_hash [0],
      compute_content_hash [1], compute_content_hash [0]] =
      [false, true, false, false] :=
  c1_dedup_last_value_only.2.2.1 [0] [1] (by decide)

/-- C2: the fingerprint is a fixed, deterministic, seedless 64-bit hash:
the accumulator stays below `2 ^ 64`, equal byte sequences always yield
equal digests (the model is a pure function of the bytes alone, so the
digest cannot depend on call order, process run or platform), and the
fixed FNV-1a basis pins the digest of the empty buffer. -/
theorem c2_fingerprint_deterministic :
    (∀ data : List Nat, fnv1a data < 2 ^ 64) ∧
    (∀ d1 d2 : List Nat, d1 = d2 →
      compute_content_hash d1 = compute_content_hash d2) ∧
    compute_content_hash [] = ("cbf29ce484222325").data := by
  refine ⟨fnv1a_lt, ?_, by decide⟩
  intro d1 d2 h
  rw [h]

/-- C2 witness: a second run over the same bytes reproduces the digest. -/
theorem c2_fingerprint_deterministic_witness :
    compute_content_hash [104, 105] = compute_content_hash [104, 105] :=
  c2_fingerprint_deterministic.2.1 [104, 105] [104, 105] rfl

/-- C3 counterexample: the claim "every text shorter than 6 characters is
never sensitive" fails: the two-character text 密码 occupies 6 UTF-8 bytes,
escapes the `text.len() < 6` short-circuit, and is flagged by the keyword
tier (regardless of the regex engine, which is never consulted). -/
theorem c3_short_text_counterexample :
    (("密码").data).length < 6 ∧
      detect_sensitive noMatchEngine (("密码").data) (("en").data) = true := by
  constructor
  · decide
  · decide

/-- C3 (amended): the detector short-circuits to false whenever the UTF-8
BYTE length of the text is below 6 — the code counts bytes, not
characters — for every regex engine and every locale. -/
theorem c3_short_circuit_is_bytes :
    ∀ (engine : RegexEngine) (text lang : List Char),
      utf8LenL text < 6 → detect_sensitive engine text lang = false := by
  intro engine text lang h
  simp [detect_sensitive, h]

/-- C3 witness: a 2-byte text is short-circuited to false. -/
theorem c3_short_circuit_is_bytes_witness :
    detect_sensitive noMatchEngine (("ab").data) (("en").data) = false :=
  c3_short_circuit_is_bytes noMatchEngine (("ab").data) (("en").data) (by decide)

/-- C4 counterexample: when neither the pending captured identity nor the
current foreground lookup yields an identity, the settled event is
DISCARDED (`on_clipboard_change` returns), not processed as the claim
states. -/
theorem c4_missing_identity_counterexample :
    resolve_app_info none none = none ∧
      settled_event_admits false none none = none := ⟨rfl, rfl⟩

/-- C4 (amended): a missing identity is non-fatal only one source at a
time — a missing pending identity falls back to the current foreground
lookup, and an identity from the fallback (for a non-self app) is admitted
— but when BOTH sources yield nothing the settled event is discarded
without processing. -/
theorem c4_identity_required :
    (∀ pending foreground : Option AppWindowInfo,
      resolve_app_info pending foreground = none ↔
        pending = none ∧ foreground = none) ∧
    (∀ pending foreground : Option AppWindowInfo,
      resolve_app_info pending foreground = none →
        settled_event_admits false pending foreground = none) ∧
    (∀ info : AppWindowInfo, info.is_self = false →
      settled_event_admits false none (some info) = some info) := by
  refine ⟨?_, ?_, ?_⟩
  · intro pending foreground
    cases pending <;> simp [resolve_app_info]
  · intro pending foreground h
    simp [settled_event_admits, h]
  · intro info h
    simp [settled_event_admits, resolve_app_info, h]

/-- C4 witness: a fallback identity of a foreign app is admitted. -/
theorem c4_identity_required_witness :
    settled_event_admits false none
      (some { name := [], exe_path := [], icon_base64 := none, is_self := false }) =
      some { name := [], exe_path := [], icon_base64 := none, is_self := false } :=
  c4_identity_required.2.2
    { name := [], exe_path := [], icon_base64 := none, is_self := false } rfl

/-- C7: the header `SourceURL` is kept exactly when it starts with
`http://` or `https://`; a discarded header falls through to the text
fallback; trimmed single-line http(s) text is adopted; `SourceURL: ftp://x`
yields no source URL; and plain text `https://example.com/page` with no
HTML header becomes the source URL. -/
theorem c7_source_url_reconciliation :
    (∀ (url : List Char) (text : Option (List Char)),
      (List.isPrefixOf (("http://").data) url ∨
        List.isPrefixOf (("https://").data) url) →
      reconcile_source_url (some url) text = some url) ∧
    (∀ (url : List Char) (text : Option (List Char)),
      ¬ (List.isPrefixOf (("http://").data) url ∨
        List.isPrefixOf (("https://").data) url) →
      reconcile_source_url (some url) text = reconcile_source_url none text) ∧
    (∀ t : List Char,
      (List.isPrefixOf (("http://").data) (trimL t) ∨
        List.isPrefixOf (("https://").data) (trimL t)) →
      (trimL t).contains '\n' = false →
      reconcile_source_url none (some t) = some (trimL t)) ∧
    reconcile_source_url (parseSourceURL (linesL (("SourceURL: ftp://x").data)))
      (some (("some text").data)) = none ∧
    reconcile_source_url none (some (("https://example.com/page").data)) =
      some (("https://example.com/page").data) := by
  refine ⟨?_, ?_, ?_, by decide, by decide⟩
  · intro url text h
    simp only [reconcile_source_url]
    rw [if_neg (not_not_intro h)]
  · intro url text h
    simp only [reconcile_source_url]
    rw [if_pos h]
  · intro t h hn
    simp only [reconcile_source_url]
    rw [if_pos ⟨h, by simpa using hn⟩]

/-- C7 witness: a kept https header URL survives reconciliation. -/
theorem c7_source_url_reconciliation_witness :
    reconcile_source_url (some (("https://a.example").data)) none =
      some (("https://a.example").data) :=
  c7_source_url_reconciliation.1 (("https://a.example").data) none (by decide)

/-- C8: text and image are mutually exclusive in the extracted bundle:
image extraction runs only when no non-blank text was obtained, so a
non-blank text forces `image = none`, a present image forces the text
absent-or-blank, and a clipboard with no supported format at all yields
both absent. -/
theorem c8_text_image_exclusive :
    (∀ (s : ClipboardState) (t : List Char),
      (read_clipboard_content s).text = some t → trimL t ≠ [] →
      (read_clipboard_content s).image = none) ∧
    (∀ s : ClipboardState, ((read_clipboard_content s).image).isSome = true →
      blankOpt ((read_clipboard_content s).text) = true) ∧
    (∀ s : ClipboardState, s.unicodeText = none → s.ansiBytes = none →
      s.png1 = none → s.png2 = none → s.dibv5 = none → s.dib = none →
      (read_clipboard_content s).text = none ∧
        (read_clipboard_content s).image = none) := by
  refine ⟨?_, ?_, ?_⟩
  · intro s t ht htr
    cases ho : s.openOk with
    | false => simp [read_clipboard_content, ho] at ht
    | true =>
      simp only [read_clipboard_content, ho] at ht ⊢
      simp only [Bool.true_eq_false, if_false] at ht ⊢
      simp [image_field, ht, blankOpt, htr]
  · intro s h
    cases ho : s.openOk with
    | false => simp [read_clipboard_content, ho] at h
    | true =>
      simp only [read_clipboard_content, ho, Bool.true_eq_false, if_false] at h ⊢
      by_cases hb : blankOpt (text_field s) = true
      · exact hb
      · simp [image_field, hb] at h
  · intro s h1 h2 h3 h4 h5 h6
    cases ho : s.openOk with
    | false => simp [read_clipboard_content, ho]
    | true =>
      constructor
      · simp [read_clipboard_content, ho, text_field, h1, h2]
      · simp [read_clipboard_content, ho, image_field, blankOpt, text_field,
          h1, h2, try_read_clipboard_image, pngCandidate, tryDib, h3, h4, h5, h6]

/-- C8 witness: a clipboard holding only a PNG yields an image and a blank
(absent) text. -/
theorem c8_text_image_exclusive_witness :
    blankOpt ((read_clipboard_content samplePngState).text) = true :=
  c8_text_image_exclusive.2.1 samplePngState (by decide)

/-- C9: a raw regex match rejected by the pattern's validator does not make
the text sensitive — the scanner continues from `max(match_end, start+1)`
instead of stopping — and, for the card pattern with the Luhn validator: a
Luhn-failing 16-digit sequence yields false, a Luhn-passing one yields
true, and a Luhn-failing sequence followed by a Luhn-passing one yields
true. -/
theorem c9_validator_rescan :
    (∀ (p : Pattern) (t : List Char) (start s e : Nat) (v : List Char → Bool),
      start < t.length →
      p.find t start = some (s, e) →
      p.validate = some v →
      v (subL t s e) = false →
      matchesFrom p t start = matchesFrom p t (Nat.max e (start + 1))) ∧
    Pattern.matches cardPattern (("1111111111111111").data) = false ∧
    Pattern.matches cardPattern (("4111111111111111").data) = true ∧
    Pattern.matches cardPattern
      (("1111111111111111 4111111111111111").data) = true ∧
    luhn_check (("1111111111111111").data) = false ∧
    luhn_check (("4111111111111111").data) = true := by
  refine ⟨?_, by decide, by decide, by decide, by decide, by decide⟩
  intro p t start s e v hstart hfind hval hrej
  unfold matchesFrom
  rw [show t.length + 1 - start = (t.length - start) + 1 from by omega]
  simp only [matchesFromAux, hstart, if_true, hfind, hval, hrej, if_false,
    Bool.false_eq_true]
  have hmax : start + 1 ≤ Nat.max e (start + 1) := Nat.le_max_right _ _
  rcases Nat.lt_or_ge t.length (Nat.max e (start + 1)) with hgt | hle
  · rw [matchesFromAux_out p t _ _ (by omega),
      matchesFromAux_out p t _ _ (by omega)]
  · exact matchesFromAux_congr p t (t.length - start)
      (t.length + 1 - Nat.max e (start + 1)) (Nat.max e (start + 1))
      (by omega) (by omega)

/-- C9 witness: on `1111111111111111 4111111111111111` the card pattern's
first raw match (the Luhn-failing run at positions 0..16) is rejected and
scanning provably continues from position 16. -/
theorem c9_validator_rescan_witness :
    matchesFrom cardPattern (("1111111111111111 4111111111111111").data) 0 =
      matchesFrom cardPattern (("1111111111111111 4111111111111111").data)
        (Nat.max 16 (0 + 1)) :=
  c9_validator_rescan.1 cardPattern
    (("1111111111111111 4111111111111111").data) 0 0 16 luhn_check
    (by decide) (by decide) rfl (by decide)

/-- C5 counterexample: a 40-byte DIB with header size 40, width 1,
height 1, 32 bpp and `BI_RGB` compression satisfies none of the claim's
listed rejection conditions, yet the decoder returns `none` (its pixel-data
offset, 40, is not below the buffer length): the claimed list is not
exhaustive. -/
theorem c5_rejects_counterexample :
    dib_to_png dibC5 = none ∧
    ¬ dibC5.length < 40 ∧
    ¬ (dibWidth dibC5 ≤ 0 ∨ 4096 < dibWidth dibC5 ∨ dibHeight dibC5 = 0 ∨
        4096 < (dibHeight dibC5).natAbs) ∧
    ¬ 16000000 < (dibWidth dibC5).toNat * (dibHeight dibC5).natAbs ∧
    dibCompression dibC5 = 0 ∧
    dibBitCount dibC5 = 32 := by
  refine ⟨by decide, by decide, by decide, by decide, by decide, by decide⟩

/-- C5 (amended): the decoder returns `none` exactly when the buffer is
shorter than 40 bytes; or width ≤ 0 or > 4096; or height = 0 or |height| >
4096; or width·|height| > 16,000,000; or the compression mode is neither 0
nor 3; or the computed pixel-data offset is at or past the end of the
buffer; or (8-bit) the palette extends past the buffer; or the bit depth is
not one of 32, 24, 16, 8.  (In the source the size, dimension, pixel-count,
compression and offset rejections precede the creation of the output
raster; the unsupported-bit-depth rejection follows it.) -/
theorem c5_rejects_iff (dib : List Nat) :
    dib_to_png dib = none ↔
      (dib.length < 40 ∨
       (dibWidth dib ≤ 0 ∨ 4096 < dibWidth dib ∨ dibHeight dib = 0 ∨
         4096 < (dibHeight dib).natAbs) ∨
       16000000 < (dibWidth dib).toNat * (dibHeight dib).natAbs ∨
       (dibCompression dib ≠ 0 ∧ dibCompression dib ≠ 3) ∨
       dib.length ≤ dibPixelOffset dib ∨
       (dibBitCount dib = 8 ∧
         dib.length < dibHeaderSize dib + dibPaletteCount dib * 4) ∨
       (dibBitCount dib ≠ 32 ∧ dibBitCount dib ≠ 24 ∧ dibBitCount dib ≠ 16 ∧
         dibBitCount dib ≠ 8)) := by
  unfold dib_to_png
  by_cases h1 : dib.length < 40
  · rw [if_pos h1]
    exact iff_of_true rfl (Or.inl h1)
  rw [if_neg h1]
  by_cases h2 : dibWidth dib ≤ 0 ∨ 4096 < dibWidth dib ∨ dibHeight dib = 0 ∨
      4096 < (dibHeight dib).natAbs
  · rw [if_pos h2]
    exact iff_of_true rfl (Or.inr (Or.inl h2))
  rw [if_neg h2]
  by_cases h3 : 16000000 < (dibWidth dib).toNat * (dibHeight dib).natAbs
  · rw [if_pos h3]
    exact iff_of_true rfl (Or.inr (Or.inr (Or.inl h3)))
  rw [if_neg h3]
  by_cases h4 : dibCompression dib ≠ 0 ∧ dibCompression dib ≠ 3
  · rw [if_pos h4]
    exact iff_of_true rfl (Or.inr (Or.inr (Or.inr (Or.inl h4))))
  rw [if_neg h4]
  by_cases h5 : dib.length ≤ dibPixelOffset dib
  · rw [if_pos h5]
    exact iff_of_true rfl (Or.inr (Or.inr (Or.inr (Or.inr (Or.inl h5)))))
  rw [if_neg h5]
  by_cases h6 : dibBitCount dib = 32
  · rw [if_pos h6]
    refine iff_of_false (fun hc => Option.noConfusion hc) ?_
    rintro (h | h | h | h | h | ⟨hb8, _⟩ | ⟨hb32, _, _, _⟩)
    · exact h1 h
    · exact h2 h
    · exact h3 h
    · exact h4 h
    · exact h5 h
    · omega
    · exact hb32 h6
  rw [if_neg h6]
  by_cases h7 : dibBitCount dib = 24
  · rw [if_pos h7]
    refine iff_of_false (fun hc => Option.noConfusion hc) ?_
    rintro (h | h | h | h | h | ⟨hb8, _⟩ | ⟨_, hb24, _, _⟩)
    · exact h1 h
    · exact h2 h
    · exact h3 h
    · exact h4 h
    · exact h5 h
    · omega
    · exact hb24 h7
  rw [if_neg h7]
  by_cases h8 : dibBitCount dib = 16
  · rw [if_pos h8]
    refine iff_of_false (fun hc => Option.noConfusion hc) ?_
    rintro (h | h | h | h | h | ⟨hb8, _⟩ | ⟨_, _, hb16, _⟩)
    · exact h1 h
    · exact h2 h
    · exact h3 h
    · exact h4 h
    · exact h5 h
    · omega
    · exact hb16 h8
  rw [if_neg h8]
  by_cases h9 : dibBitCount dib = 8
  · rw [if_pos h9]
    by_cases h10 : dib.length < dibHeaderSize dib + dibPaletteCount dib * 4
    · rw [if_pos h10]
      exact iff_of_true rfl
        (Or.inr (Or.inr (Or.inr (Or.inr (Or.inr (Or.inl ⟨h9, h10⟩))))))
    · rw [if_neg h10]
      refine iff_of_false (fun hc => Option.noConfusion hc) ?_
      rintro (h | h | h | h | h | ⟨_, hpal⟩ | ⟨_, _, _, hb8x⟩)
      · exact h1 h
      · exact h2 h
      · exact h3 h
      · exact h4 h
      · exact h5 h
      · exact h10 hpal
      · exact hb8x h9
  rw [if_neg h9]
  exact iff_of_true rfl
    (Or.inr (Or.inr (Or.inr (Or.inr (Or.inr (Or.inr ⟨h6, h7, h8, h9⟩))))))

/-- C6: the bitmap decoder is total on arbitrary byte buffers.  The
checked-access interpretation — in which every buffer read that Rust
performs through slice indexing is explicit and an out-of-bounds index
aborts — never aborts: for EVERY input it returns `Except.ok` of exactly
what the plain model computes, because each row's guard check keeps all of
that row's pixel (and palette) reads inside the buffer, and a row whose
range exceeds the buffer is skipped, not read.  In particular a malformed
or truncated DIB never produces a hard failure: the result is always a
raster or `none`. -/
theorem c6_decoder_total (dib : List Nat) :
    dibToPngE dib = Except.ok (dib_to_png dib) := by
  by_cases h1 : dib.length < 40
  · rw [dibToPngE, dib_to_png, if_pos h1, if_pos h1]
  · rw [dibToPngE, dib_to_png, if_neg h1, if_neg h1]
    rw [u32leE_ok dib 0 (by omega), except_bind_ok]
    rw [i32leE_ok dib 4 (by omega), except_bind_ok]
    rw [i32leE_ok dib 8 (by omega), except_bind_ok]
    rw [u16leE_ok dib 14 (by omega), except_bind_ok]
    rw [u32leE_ok dib 16 (by omega), except_bind_ok]
    rw [u32leE_ok dib 32 (by omega), except_bind_ok]
    simp only [dibWidth, dibHeight, dibBitCount, dibCompression]
    by_cases h2 : i32le dib 4 ≤ 0 ∨ 4096 < i32le dib 4 ∨ i32le dib 8 = 0 ∨
        4096 < (i32le dib 8).natAbs
    · rw [if_pos h2, if_pos h2]
      rfl
    rw [if_neg h2, if_neg h2]
    by_cases h3 : 16000000 < (i32le dib 4).toNat * (i32le dib 8).natAbs
    · rw [if_pos h3, if_pos h3]
      rfl
    rw [if_neg h3, if_neg h3]
    by_cases h4 : u32le dib 16 ≠ 0 ∧ u32le dib 16 ≠ 3
    · rw [if_pos h4, if_pos h4]
      rfl
    rw [if_neg h4, if_neg h4]
    by_cases h5 : dib.length ≤ dibPixelOffset dib
    · rw [if_pos h5, if_pos h5]
      rfl
    rw [if_neg h5, if_neg h5]
    by_cases h6 : u16le dib 14 = 32
    · rw [if_pos h6, if_pos h6]
      rw [buildRowsE_eq (dibW dib) (dibRaw dib).length (dibW dib * 4) (dibW dib * 4)
        (dibAbsH dib) (dibTopDown dib) (row32 (dibRaw dib) (dibW dib))
        (row32E (dibRaw dib) (dibW dib))
        (fun rs h => row32E_ok (dibRaw dib) (dibW dib) rs h) (dibAbsH dib) 0,
        except_bind_ok]
      rfl
    rw [if_neg h6, if_neg h6]
    by_cases h7 : u16le dib 14 = 24
    · rw [if_pos h7, if_pos h7]
      rw [buildRowsE_eq (dibW dib) (dibRaw dib).length
        ((dibW dib * 3 + 3) - (dibW dib * 3 + 3) % 4) (dibW dib * 3)
        (dibAbsH dib) (dibTopDown dib) (row24 (dibRaw dib) (dibW dib))
        (row24E (dibRaw dib) (dibW dib))
        (fun rs h => row24E_ok (dibRaw dib) (dibW dib) rs h) (dibAbsH dib) 0,
        except_bind_ok]
      rfl
    rw [if_neg h7, if_neg h7]
    by_cases h8 : u16le dib 14 = 16
    · rw [if_pos h8, if_pos h8]
      rw [buildRowsE_eq (dibW dib) (dibRaw dib).length
        ((dibW dib * 2 + 3) - (dibW dib * 2 + 3) % 4) (dibW dib * 2)
        (dibAbsH dib) (dibTopDown dib) (row16 (dibRaw dib) (dibW dib))
        (row16E (dibRaw dib) (dibW dib))
        (fun rs h => row16E_ok (dibRaw dib) (dibW dib) rs h) (dibAbsH dib) 0,
        except_bind_ok]
      rfl
    rw [if_neg h8, if_neg h8]
    by_cases h9 : u16le dib 14 = 8
    · rw [if_pos h9, if_pos h9]
      by_cases h10 : dib.length < dibHeaderSize dib + dibPaletteCount dib * 4
      · rw [if_pos h10, if_pos h10]
        rfl
      · rw [if_neg h10, if_neg h10]
        have hpl : (dibPalette dib).length = dibPaletteCount dib * 4 := by
          simp only [dibPalette, List.length_take, List.length_drop]
          omega
        rw [buildRowsE_eq (dibW dib) (dibRaw dib).length
          ((dibW dib + 3) - (dibW dib + 3) % 4) (dibW dib)
          (dibAbsH dib) (dibTopDown dib)
          (row8 (dibRaw dib) (dibPalette dib) (dibPaletteCount dib) (dibW dib))
          (row8E (dibRaw dib) (dibPalette dib) (dibPaletteCount dib) (dibW dib))
          (fun rs h => row8E_ok (dibRaw dib) (dibPalette dib) (dibPaletteCount dib)
            (dibW dib) rs h (le_of_eq hpl.symm)) (dibAbsH dib) 0,
          except_bind_ok]
        rfl
    · rw [if_neg h9, if_neg h9]
      rfl

/-- C10: in the 32-bit branch the decoder reads the channels of each drawn
pixel in BGRA byte order from the buffer, normalising a zero alpha byte to
fully opaque 255 and preserving any non-zero alpha byte unchanged — so
every drawn 32-bit pixel has non-zero output alpha. -/
theorem c10_pix32_bgra_alpha (dib : List Nat) (rows : List (List Rgba)) (y x : Nat)
    (hdec : dib_to_png dib = some rows)
    (hbc : dibBitCount dib = 32)
    (hy : y < dibAbsH dib)
    (hx : x < dibW dib)
    (hfit : ∀ j, j ≤ y →
      dibSrcRow dib j * (dibW dib * 4) + dibW dib * 4 ≤ (dibRaw dib).length) :
    (rows.getD y []).getD x zeroPix =
      { r := dib.getD (dib32Offset dib y x + 2) 0,
        g := dib.getD (dib32Offset dib y x + 1) 0,
        b := dib.getD (dib32Offset dib y x) 0,
        a := if dib.getD (dib32Offset dib y x + 3) 0 = 0 then 255
             else dib.getD (dib32Offset dib y x + 3) 0 } ∧
      ((rows.getD y []).getD x zeroPix).a ≠ 0 := by
  rw [dib_to_png] at hdec
  by_cases h1 : dib.length < 40
  · rw [if_pos h1] at hdec
    exact absurd hdec (fun hc => Option.noConfusion hc)
  rw [if_neg h1] at hdec
  by_cases h2 : dibWidth dib ≤ 0 ∨ 4096 < dibWidth dib ∨ dibHeight dib = 0 ∨
      4096 < (dibHeight dib).natAbs
  · rw [if_pos h2] at hdec
    exact absurd hdec (fun hc => Option.noConfusion hc)
  rw [if_neg h2] at hdec
  by_cases h3 : 16000000 < (dibWidth dib).toNat * (dibHeight dib).natAbs
  · rw [if_pos h3] at hdec
    exact absurd hdec (fun hc => Option.noConfusion hc)
  rw [if_neg h3] at hdec
  by_cases h4 : dibCompression dib ≠ 0 ∧ dibCompression dib ≠ 3
  · rw [if_pos h4] at hdec
    exact absurd hdec (fun hc => Option.noConfusion hc)
  rw [if_neg h4] at hdec
  by_cases h5 : dib.length ≤ dibPixelOffset dib
  · rw [if_pos h5] at hdec
    exact absurd hdec (fun hc => Option.noConfusion hc)
  rw [if_neg h5] at hdec
  rw [if_pos hbc] at hdec
  have hrows : rows = dibRows32 dib := (Option.some.inj hdec).symm
  subst hrows
  have hrow := buildRows_getD (dibW dib) ((dibRaw dib).length) (dibW dib * 4)
    (dibW dib * 4) (dibAbsH dib) (dibTopDown dib) (row32 (dibRaw dib) (dibW dib))
    (dibAbsH dib) 0 y hy (fun i hi => by
      have h := hfit i hi
      simpa [dibSrcRow, dibTopDown, dibAbsH, decide_eq_true_eq] using h)
  have hsrc : (if dibTopDown dib then 0 + y else dibAbsH dib - 1 - (0 + y)) =
      dibSrcRow dib y := by
    simp [dibTopDown, dibSrcRow, dibAbsH, decide_eq_true_eq]
  rw [dibRows32, hrow, hsrc, row32, range_map_getD _ _ _ _ hx]
  simp only [readPix32, dibRaw, getD_drop]
  rw [show dibPixelOffset dib + (dibSrcRow dib y * (dibW dib * 4) + x * 4) =
        dib32Offset dib y x from by simp only [dib32Offset, dibW]; omega,
      show dibPixelOffset dib + (dibSrcRow dib y * (dibW dib * 4) + x * 4 + 1) =
        dib32Offset dib y x + 1 from by simp only [dib32Offset, dibW]; omega,
      show dibPixelOffset dib + (dibSrcRow dib y * (dibW dib * 4) + x * 4 + 2) =
        dib32Offset dib y x + 2 from by simp only [dib32Offset, dibW]; omega,
      show dibPixelOffset dib + (dibSrcRow dib y * (dibW dib * 4) + x * 4 + 3) =
        dib32Offset dib y x + 3 from by simp only [dib32Offset, dibW]; omega]
  refine ⟨rfl, ?_⟩
  by_cases hz : dib.getD (dib32Offset dib y x + 3) 0 = 0
  · rw [List.getD_eq_getElem?_getD] at hz
    simp [hz]
  · rw [List.getD_eq_getElem?_getD] at hz
    simp [hz]

/-- C10 witness: the 1x1 32-bit DIB whose pixel bytes are `[10, 20, 30, 0]`
decodes to the single pixel `(r=30, g=20, b=10, a=255)`: BGRA order, zero
alpha normalised to opaque. -/
theorem c10_pix32_bgra_alpha_witness :
    dib_to_png dib44 = some [[{ r := 30, g := 20, b := 10, a := 255 }]] ∧
    ((([[{ r := 30, g := 20, b := 10, a := 255 }]] : List (List Rgba)).getD 0 []).getD 0
        zeroPix =
      { r := dib44.getD (dib32Offset dib44 0 0 + 2) 0,
        g := dib44.getD (dib32Offset dib44 0 0 + 1) 0,
        b := dib44.getD (dib32Offset dib44 0 0) 0,
        a := if dib44.getD (dib32Offset dib44 0 0 + 3) 0 = 0 then 255
             else dib44.getD (dib32Offset dib44 0 0 + 3) 0 } ∧
      ((([[{ r := 30, g := 20, b := 10, a := 255 }]] : List (List Rgba)).getD 0 []).getD 0
          zeroPix).a ≠ 0) :=
  ⟨by decide,
   c10_pix32_bgra_alpha dib44 [[{ r := 30, g := 20, b := 10, a := 255 }]] 0 0
     (by decide) (by decide) (by decide) (by decide)
     (fun j hj => by
       have hj0 : j = 0 := Nat.le_zero.mp hj
       subst hj0
       decide)⟩

end Cutboard
